import Mathlib

/-!
Verification development for the data-quality validation engine of the
hackathon-crawlguard backend.

The embedding covers, translated from the Python source:
  * app/core/data_quality/csv_validator.py   (CSVValidator)
  * app/core/data_quality/json_validator.py  (JSONValidator)
  * app/core/data_quality/base_validator.py  (BaseValidator result cleaning)
  * app/api/v1/endpoints/data_validation.py  (validate_data aggregation)

Modelling conventions:
  * Python scalar and container values are modelled by `PyVal`.  Floats are
    modelled exactly (a rational number, NaN, or a signed infinity); numpy
    scalar wrappers (`np.integer`, `np.floating`) are distinct constructors
    because `isinstance` dispatch in the source distinguishes them.
    `np.float64` is a subclass of Python `float` (so it serializes and casts
    like a float), while numpy integers are not `int` subclasses and are not
    JSON-serializable by `json.dumps`; the model reflects both facts.
    pandas DataFrame/Series objects and arbitrary attribute objects are
    outside the modelled value universe (no claim depends on them).
  * A dataframe is a list of records; a record is an association list from
    column names to values.  `pd.json_normalize` fills a missing key with
    NaN, which `recGet` reflects.
  * The great_expectations library is external to the repository: the
    outcome of building and running an expectation (`getattr` lookup,
    constructor, `batch.validate`) is an input of the evaluation functions,
    either an exception message or a `GEResult` holding the fields the
    source reads from `validation_result.result`.
  * Python exceptions are modelled with `Except`.  Exceptions caught by a
    `try/except` in the source are `Except String` (the exception text);
    errors that escape `validate_rules` entirely (an `UnboundLocalError` or
    `KeyError` raised from the handler or the result-building code itself)
    are `PyErr`.
  * Exact wording of some diagnostic strings (quote characters, f-string
    indentation, list/str `repr` of containers) is abstracted; no claim
    depends on those characters.
-/

/-- A Python float value: a finite rational, NaN, or a signed infinity. -/
inductive PyFloat : Type where
  | num (q : ℚ)
  | nan
  | inf
  | ninf
deriving DecidableEq

/-- A Python runtime value as used by the validators. -/
inductive PyVal : Type where
  | none
  | bool (b : Bool)
  | int (n : ℤ)
  | float (f : PyFloat)
  | npInt (n : ℤ)
  | npFloat (f : PyFloat)
  | str (s : String)
  | list (xs : List PyVal)
  | dict (kvs : List (String × PyVal))

instance : Inhabited PyVal := ⟨PyVal.none⟩

/-- A dataframe record / a kwargs mapping: an association list. -/
abbrev Rec := List (String × PyVal)

/-- Great Expectations rule kwargs, e.g. `{"column": "price", ...}`. -/
abbrev Kwargs := List (String × PyVal)

/-- Python `==` on the scalar values the validators compare (set membership,
`in` tests).  Containers are never compared by the modelled code paths on
equal-shaped operands (unhashable values are rejected before any set is
built), so the comparison is structural on scalars and `false` across
constructors; Python numeric cross-type equality (`1 == 1.0 == True`) is
not needed by any modelled path, where compared values are homogeneous. -/
def pyBEq : PyVal → PyVal → Bool
  | PyVal.none, PyVal.none => true
  | PyVal.bool a, PyVal.bool b => a == b
  | PyVal.int a, PyVal.int b => a == b
  | PyVal.float a, PyVal.float b => a == b
  | PyVal.npInt a, PyVal.npInt b => a == b
  | PyVal.npFloat a, PyVal.npFloat b => a == b
  | PyVal.str a, PyVal.str b => a == b
  | _, _ => false

/-- `isinstance(x, list)`. -/
def isList : PyVal → Bool
  | PyVal.list _ => true
  | _ => false

/-- A value `dropna` removes / `fillna` would replace: `None` or a float NaN. -/
def isNa : PyVal → Bool
  | PyVal.none => true
  | PyVal.float PyFloat.nan => true
  | PyVal.npFloat PyFloat.nan => true
  | _ => false

/-- Unhashable Python values (lists, dicts): adding one to a `set` raises. -/
def isUnhashable : PyVal → Bool
  | PyVal.list _ => true
  | PyVal.dict _ => true
  | _ => false

/-- Python `str(value)` for the values the sample extractor stringifies.
The textual form of containers and of float literals is abstracted (no
claim inspects those strings). -/
def pyStr : PyVal → String
  | PyVal.none => "None"
  | PyVal.bool b => cond b "True" "False"
  | PyVal.int n => toString n
  | PyVal.npInt n => toString n
  | PyVal.float (PyFloat.num q) => toString q
  | PyVal.float PyFloat.nan => "nan"
  | PyVal.float PyFloat.inf => "inf"
  | PyVal.float PyFloat.ninf => "-inf"
  | PyVal.npFloat (PyFloat.num q) => toString q
  | PyVal.npFloat PyFloat.nan => "nan"
  | PyVal.npFloat PyFloat.inf => "inf"
  | PyVal.npFloat PyFloat.ninf => "-inf"
  | PyVal.str s => s
  | PyVal.list _ => "<list>"
  | PyVal.dict _ => "<dict>"

/-- `kwargs.get(key)` / `mapping.get(key)`. -/
def kwGet (kw : Kwargs) (k : String) : Option PyVal :=
  kw.lookup k

/-- Reading column `col` of a record of the normalized dataframe:
`pd.json_normalize` fills keys missing from a record with NaN. -/
def recGet (r : Rec) (col : String) : PyVal :=
  (r.lookup col).getD (PyVal.float PyFloat.nan)

/-- `col` is among the dataframe columns (for a normalized JSON frame the
columns are the union of the record keys). -/
def dfHasColumn (df : List Rec) (col : String) : Bool :=
  df.any (fun r => (r.lookup col).isSome)

/-- The JSONValidator explode condition on the target column:
`is_object_dtype(df[column]) and df[column].apply(isinstance list).any()`.
A pandas column holding any list necessarily has object dtype, so the
conjunction holds exactly when some record has a list in the column. -/
def doExplode (df : List Rec) (col : String) : Bool :=
  df.any (fun r => isList (recGet r col))

mutual

/-- `BaseValidator._ensure_json_serializable` restricted to the modelled
value universe (the DataFrame/Series, `to_dict` and `__dict__` branches of
the source apply to values outside it): numpy NaN becomes `None`, numpy
ints/floats unwrap, lists/dicts recurse, plain scalars pass through. -/
def ensureJsonSerializable : PyVal → PyVal
  | PyVal.npFloat PyFloat.nan => PyVal.none
  | PyVal.npInt n => PyVal.int n
  | PyVal.npFloat f => PyVal.float f
  | PyVal.list xs => PyVal.list (ensureJsonSerializableList xs)
  | PyVal.dict kvs => PyVal.dict (ensureJsonSerializableKVs kvs)
  | v => v

/-- `_ensure_json_serializable` mapped over a list. -/
def ensureJsonSerializableList : List PyVal → List PyVal
  | [] => []
  | v :: t => ensureJsonSerializable v :: ensureJsonSerializableList t

/-- `_ensure_json_serializable` mapped over dict values. -/
def ensureJsonSerializableKVs : List (String × PyVal) → List (String × PyVal)
  | [] => []
  | (k, v) :: t => (k, ensureJsonSerializable v) :: ensureJsonSerializableKVs t

end

mutual

/-- `json.dumps` succeeds on the value: everything in the modelled universe
except numpy integers (not `int` subclasses, rejected by the encoder);
`np.float64` is a `float` subclass and NaN/infinity are emitted as
non-standard tokens under the default `allow_nan=True`. -/
def pySerializable : PyVal → Bool
  | PyVal.npInt _ => false
  | PyVal.list xs => pySerializableList xs
  | PyVal.dict kvs => pySerializableKVs kvs
  | _ => true

/-- `pySerializable` over a list. -/
def pySerializableList : List PyVal → Bool
  | [] => true
  | v :: t => pySerializable v && pySerializableList t

/-- `pySerializable` over dict values. -/
def pySerializableKVs : List (String × PyVal) → Bool
  | [] => true
  | (_, v) :: t => pySerializable v && pySerializableKVs t

end

mutual

/-- No numpy-NaN occurs anywhere in the value. -/
def npNanFree : PyVal → Bool
  | PyVal.npFloat PyFloat.nan => false
  | PyVal.list xs => npNanFreeList xs
  | PyVal.dict kvs => npNanFreeKVs kvs
  | _ => true

/-- `npNanFree` over a list. -/
def npNanFreeList : List PyVal → Bool
  | [] => true
  | v :: t => npNanFree v && npNanFreeList t

/-- `npNanFree` over dict values. -/
def npNanFreeKVs : List (String × PyVal) → Bool
  | [] => true
  | (_, v) :: t => npNanFree v && npNanFreeKVs t

end

/-- Python `key in value` for a string key.  On a dict it tests the keys, on
a string it is a substring test, on a list a membership test; on scalars it
raises `TypeError`. -/
def pyIn (k : String) : PyVal → Except String Bool
  | PyVal.dict kvs => Except.ok (kvs.lookup k).isSome
  | PyVal.str s => Except.ok ((s.splitOn k).length != 1)
  | PyVal.list xs => Except.ok (xs.any (pyBEq (PyVal.str k)))
  | _ => Except.error "argument is not iterable"

/-- Python `value[key]` for a string key: dict lookup; everything else in
the modelled universe raises (`TypeError` for sequences indexed by `str`). -/
def pyGetKey (k : String) : PyVal → Except String PyVal
  | PyVal.dict kvs =>
      match kvs.lookup k with
      | some v => Except.ok v
      | Option.none => Except.error "KeyError"
  | _ => Except.error "indices must be integers"

/-- Python `int(x)` on a float: truncation toward zero; NaN and infinities
raise. -/
def pyIntCast : PyFloat → Except String ℤ
  | PyFloat.num q => Except.ok (if 0 ≤ q then ⌊q⌋ else ⌈q⌉)
  | PyFloat.nan => Except.error "cannot convert float NaN to integer"
  | PyFloat.inf => Except.error "cannot convert float infinity to integer"
  | PyFloat.ninf => Except.error "cannot convert float infinity to integer"

/-- The distinct elements of a list under Python `==` (models `set(l)` for
hashable elements; only the cardinality of the result is consumed). -/
def pyDistinct : List PyVal → List PyVal
  | [] => []
  | v :: t =>
      let d := pyDistinct t
      if d.any (pyBEq v) then d else v :: d

/-- The fields the validators read from a `great_expectations`
`validation_result.result` mapping.  `Option.none` models an absent key
(the source reads every field with `.get(key, default)`). -/
structure GEResult : Type where
  unexpected_count : Option ℕ
  missing_count : Option ℕ
  element_count : Option ℕ
  unexpected_index_list : List PyVal
  partial_unexpected_index_list : List PyVal
  unexpected_values : List PyVal
  partial_unexpected_values : List PyVal

instance : Inhabited GEResult :=
  ⟨⟨Option.none, Option.none, Option.none, [], [], [], []⟩⟩

/-- `rule["great_expectations_rule"]`: the structured check description. -/
structure GERule : Type where
  expectation_type : String
  kwargs : Kwargs

/-- A rule dict as consumed by `validate_rules`.  `Option.none` in
`ge_rule` models a rule dict without the `"great_expectations_rule"` key
(accessing it raises `KeyError`); `name`/`natural_language_rule` are read
with `.get`. -/
structure Rule : Type where
  name : Option String
  natural_language_rule : Option String
  ge_rule : Option GERule

/-- One per-rule result dict as built by either validator.  `columns` is
`Option.none` when the `"columns"` key is absent from the dict (the
JSONValidator never writes it). -/
structure RuleResult : Type where
  rule_name : String
  natural_language_rule : String
  passed : Bool
  expectation_type : String
  kwargs : Kwargs
  columns : Option (List PyVal)
  total_records : ℕ
  failed_records : ℕ
  success_rate : ℚ
  error_message : Option String
  failed_records_sample : Option (List PyVal)

instance : Inhabited RuleResult :=
  ⟨{ rule_name := "", natural_language_rule := "", passed := false,
     expectation_type := "", kwargs := [], columns := Option.none,
     total_records := 0, failed_records := 0, success_rate := 0,
     error_message := Option.none, failed_records_sample := Option.none }⟩

/-- An error that escapes `validate_rules` itself (raised from the `except`
handler or the result-building code, hence not caught by anything). -/
inductive PyErr : Type where
  | unboundLocal (v : String)
  | keyErr (k : String)
  | typeErr (m : String)
deriving DecidableEq

/-- `100.0 * (total_records - failed_records) / total_records`. -/
def rateQ (total failed : ℕ) : ℚ :=
  100 * (((total : ℚ) - (failed : ℚ)) / (total : ℚ))

/-- The `kwargs.get("column", "unknown_column")` dict key used when wrapping
a scalar failing value (`{column_name: str(value)}`).  A non-string column
value is a legal dict key in Python; it is represented here by its text. -/
def colKeyOf (kw : Kwargs) : String :=
  match kwGet kw "column" with
  | some (PyVal.str s) => s
  | some v => pyStr v
  | Option.none => "unknown_column"

/-- `df.iloc[i]` for one (possibly negative) integer position. -/
def ilocOne (df : List Rec) (i : ℤ) : Except String Rec :=
  let j : ℤ := if i < 0 then (df.length : ℤ) + i else i
  if h : 0 ≤ j ∧ j.toNat < df.length then
    Except.ok (df.get ⟨j.toNat, h.2⟩)
  else
    Except.error "positional indexer out of bounds"

/-- `df.iloc[positions]` for a list of collected index values: integer and
numpy-integer positions address rows, anything else raises. -/
def ilocRecords (df : List Rec) : List PyVal → Except String (List Rec)
  | [] => Except.ok []
  | v :: rest => do
      let r ←
        match v with
        | PyVal.int i => ilocOne df i
        | PyVal.npInt i => ilocOne df i
        | _ => Except.error "iloc requires integer indexers"
      let t ← ilocRecords df rest
      pure (r :: t)

/-- CSVValidator index collection over `unexpected_index_list` items:
`item["index"]` for dicts carrying the key, `int(item)` for ints/floats
(a bool is an `int` in Python; `int()` of NaN or an infinity raises). -/
def collectIndicesCsv : List PyVal → Except String (List PyVal)
  | [] => Except.ok []
  | it :: rest => do
      let tail ← collectIndicesCsv rest
      match it with
      | PyVal.dict kvs =>
          match kvs.lookup "index" with
          | some v => pure (v :: tail)
          | Option.none => pure tail
      | PyVal.int n => pure (PyVal.int n :: tail)
      | PyVal.bool b => pure (PyVal.int (cond b 1 0) :: tail)
      | PyVal.float f => do
          let n ← pyIntCast f
          pure (PyVal.int n :: tail)
      | PyVal.npFloat f => do
          let n ← pyIntCast f
          pure (PyVal.int n :: tail)
      | _ => pure tail

/-- JSONValidator index collection: like the CSV one but a dict item is
read under `"index"`, else `"__record_id__"`, else `"row_id"`. -/
def collectIndicesJson : List PyVal → Except String (List PyVal)
  | [] => Except.ok []
  | it :: rest => do
      let tail ← collectIndicesJson rest
      match it with
      | PyVal.dict kvs =>
          match kvs.lookup "index" with
          | some v => pure (v :: tail)
          | Option.none =>
              match kvs.lookup "__record_id__" with
              | some v => pure (v :: tail)
              | Option.none =>
                  match kvs.lookup "row_id" with
                  | some v => pure (v :: tail)
                  | Option.none => pure tail
      | PyVal.int n => pure (PyVal.int n :: tail)
      | PyVal.bool b => pure (PyVal.int (cond b 1 0) :: tail)
      | PyVal.float f => do
          let n ← pyIntCast f
          pure (PyVal.int n :: tail)
      | PyVal.npFloat f => do
          let n ← pyIntCast f
          pure (PyVal.int n :: tail)
      | _ => pure tail

/-- Fetching up to 5 rows by position, inside the method-local
`try/except: pass` of the CSV extractor: a fetch error contributes
nothing.  Rows become dicts via `to_dict(orient="records")`. -/
def ilocOrEmpty (df : List Rec) (idxs : List PyVal) : List PyVal :=
  match ilocRecords df idxs with
  | Except.ok rs => rs.map PyVal.dict
  | Except.error _ => []

/-- Methods 3/4 of both extractors: take up to 5 unexpected values, keep
dicts, wrap a scalar `v` as `{column_name: str(v)}`. -/
def wrapValues (kw : Kwargs) (vals : List PyVal) : List PyVal :=
  (vals.take 5).map (fun v =>
    match v with
    | PyVal.dict d => PyVal.dict d
    | v => PyVal.dict [(colKeyOf kw, PyVal.str (pyStr v))])

/-- Last-resort sampling: the first 5 non-null values of the target column,
each wrapped as `{column_name: str(value)}`; nothing when the rule has no
string `column` naming an existing column. -/
def fallbackColumnSample (kw : Kwargs) (df : List Rec) (cols : List String) :
    List PyVal :=
  match kwGet kw "column" with
  | some (PyVal.str c) =>
      if cols.contains c then
        (((df.map (fun r => recGet r c)).filter (fun v => !isNa v)).take 5).map
          (fun v => PyVal.dict [(c, PyVal.str (pyStr v))])
      else []
  | _ => []

/-- Methods 1 and 2 of the CSV extractor (they are textually identical in
the source, once over `unexpected_index_list` and once over the partial
list): collect index values — which can raise — and fetch up to 5 rows,
the fetch guarded by its own `try/except: pass`. -/
def csvIndexMethod (df : List Rec) (uil : List PyVal) :
    Except String (List PyVal) :=
  if !uil.isEmpty then do
    let idxs ← collectIndicesCsv uil
    if !idxs.isEmpty then pure (ilocOrEmpty df (idxs.take 5)) else pure []
  else pure []

/-- The body of `CSVValidator._extract_failed_records_sample` (inside its
outer `try`): the priority chain over index lists, value lists, and the
column fallback.  Raising propagates to the outer handler. -/
def csvSampleBody (vr : GEResult) (kw : Kwargs) (df : List Rec)
    (cols : List String) : Except String (List PyVal) := do
  let s1 ← csvIndexMethod df vr.unexpected_index_list
  if !s1.isEmpty then pure s1 else do
  let s2 ← csvIndexMethod df vr.partial_unexpected_index_list
  if !s2.isEmpty then pure s2 else do
  let s3 := wrapValues kw vr.unexpected_values
  if !s3.isEmpty then pure s3 else do
  let s4 := wrapValues kw vr.partial_unexpected_values
  if !s4.isEmpty then pure s4 else
  pure (fallbackColumnSample kw df cols)

/-- `CSVValidator._extract_failed_records_sample`: the outer
`except Exception: return None` plus the final
`return failed_samples if failed_samples else None`. -/
def csvExtractFailedRecordsSample (vr : GEResult) (kw : Kwargs)
    (df : List Rec) (cols : List String) : Option (List PyVal) :=
  match csvSampleBody vr kw df cols with
  | Except.ok [] => Option.none
  | Except.ok l => some l
  | Except.error _ => Option.none

/-- Methods 1 and 2 of the JSON extractor: they still collect indices
(which can raise, reaching the outer handler), but their row fetch runs
`replace(...).fillna(None)`, and `fillna(None)` always raises
`ValueError`, caught by the method-local `try/except: pass` — so these
methods never contribute records. -/
def jsonIndexMethod (uil : List PyVal) : Except String (List PyVal) :=
  if !uil.isEmpty then do
    let _ ← collectIndicesJson uil
    pure ([] : List PyVal)
  else pure []

/-- The body of `JSONValidator._extract_failed_records_sample`. -/
def jsonSampleBody (vr : GEResult) (kw : Kwargs) (df : List Rec) :
    Except String (List PyVal) := do
  let s1 ← jsonIndexMethod vr.unexpected_index_list
  if !s1.isEmpty then pure s1 else do
  let s2 ← jsonIndexMethod vr.partial_unexpected_index_list
  if !s2.isEmpty then pure s2 else do
  let s3 := wrapValues kw vr.unexpected_values
  if !s3.isEmpty then pure s3 else do
  let s4 := wrapValues kw vr.partial_unexpected_values
  if !s4.isEmpty then pure s4 else
  pure (fallbackColumnSample kw df
    ((df.foldr (fun r acc => r.map Prod.fst ++ acc) []).eraseDups))

/-- `JSONValidator._extract_failed_records_sample` with its outer handler.
The JSON frame's column list is the union of record keys. -/
def jsonExtractFailedRecordsSample (vr : GEResult) (kw : Kwargs)
    (df : List Rec) : Option (List PyVal) :=
  match jsonSampleBody vr kw df with
  | Except.ok [] => Option.none
  | Except.ok l => some l
  | Except.error _ => Option.none

/-- The accumulation pass of `CSVValidator._extract_columns_from_kwargs`:
the loop over `["column", "columns", "column_A", "column_B", "column_list"]`
(string values appended, list values extended, others skipped), followed by
the special-case block that appends `kwargs["column"]` once more (any
type), else extends/appends `kwargs["columns"]`. -/
def collectColumns (kw : Kwargs) : List PyVal :=
  let step := fun (acc : List PyVal) (param : String) =>
    match kwGet kw param with
    | some (PyVal.str s) => acc ++ [PyVal.str s]
    | some (PyVal.list xs) => acc ++ xs
    | some _ => acc
    | Option.none => acc
  let cols :=
    ["column", "columns", "column_A", "column_B", "column_list"].foldl step []
  match kwGet kw "column" with
  | some v => cols ++ [v]
  | Option.none =>
      match kwGet kw "columns" with
      | some (PyVal.list xs) => cols ++ xs
      | some v => cols ++ [v]
      | Option.none => cols

/-- The dedup loop of `_extract_columns_from_kwargs` (`seen = set()`,
append when unseen): keeps the first occurrence of each value; testing an
unhashable value against the set raises `TypeError`. -/
def uniqGo (seen : List PyVal) : List PyVal → Except String (List PyVal)
  | [] => Except.ok []
  | c :: rest =>
      if isUnhashable c then Except.error "unhashable type"
      else if seen.any (pyBEq c) then uniqGo seen rest
      else do
        let t ← uniqGo (c :: seen) rest
        pure (c :: t)

/-- `CSVValidator._extract_columns_from_kwargs`. -/
def extractColumnsFromKwargs (kw : Kwargs) : Except String (List PyVal) :=
  uniqGo [] (collectColumns kw)

/-- The per-key cleaning the sample branch of
`BaseValidator._clean_validation_result` applies to each value of a sample
record: a top-level numpy NaN becomes `None`, other numpy scalars unwrap,
and every remaining value — including nested containers — is kept as-is
(the Series/DataFrame/`to_dict` branches concern values outside the
modelled universe). -/
def cleanSampleVal : PyVal → PyVal
  | PyVal.npFloat PyFloat.nan => PyVal.none
  | PyVal.npFloat f => PyVal.float f
  | PyVal.npInt n => PyVal.int n
  | v => v

/-- Per-record cleaning of `failed_records_sample`: dict records are
cleaned key by key, a non-dict record is replaced by `str(record)`. -/
def cleanSampleRecord : PyVal → PyVal
  | PyVal.dict kvs => PyVal.dict (kvs.map (fun kv => (kv.1, cleanSampleVal kv.2)))
  | r => PyVal.str (pyStr r)

/-- The fields of the validators' per-rule computation that feed the result
dict (everything except the echoes of the rule itself). -/
structure EvalFields : Type where
  passed : Bool
  total_records : ℕ
  failed_records : ℕ
  success_rate : ℚ
  error_message : Option String
  failed_records_sample : Option (List PyVal)

/-- `BaseValidator._clean_validation_result` specialised to the typed
result record the validators build (scalar fields are fixed points of
`_ensure_json_serializable`): the sample is cleaned per record, `kwargs`
and `columns` values pass through `_ensure_json_serializable`, and the
`json.dumps` round-trip check falls back to the minimal safe result —
dropping the sample and writing a `columns` key (with the `[]` default
when it was absent) — exactly when a numpy integer survives nested in a
cleaned sample record. -/
def cleanValidationResultTyped (r : RuleResult) : RuleResult :=
  let base : RuleResult :=
    { r with
      failed_records_sample := r.failed_records_sample.map
        (fun l => l.map cleanSampleRecord),
      kwargs := r.kwargs.map (fun kv => (kv.1, ensureJsonSerializable kv.2)),
      columns := r.columns.map (fun l => l.map ensureJsonSerializable) }
  match base.failed_records_sample with
  | Option.none => base
  | some l =>
      if pySerializableList l then base
      else
        { base with
          failed_records_sample := Option.none,
          columns := some (base.columns.getD []) }

/-- The outcome of a validator's per-rule `try` body, carrying the local
bindings (`exp_type`/`kwargs`, and for the JSON validator also
`validation_result`) as of exit — stale bindings from an earlier loop
iteration persist, which the `except` handler may read. -/
inductive TryOut (σ : Type) : Type where
  | fields (f : EvalFields) (st : σ)
  | exc (m : String) (st : σ)

/-- The `exp_type`/`kwargs` bindings carried across CSVValidator loop
iterations (`Option.none` before any rule bound them). -/
abbrev CsvSt := Option (String × Kwargs)

/-- The CSV error message for a failing rule (lines 47-56 of
csv_validator.py); the third branch reproduces the f-string with its
embedded newline, indentation collapsed. -/
def csvErrorMessage (failed total : ℕ) (expT : String) : String :=
  if failed ≠ 0 then
    "Validation failed: " ++ toString failed ++ " records failed " ++ expT
  else if total ≠ 0 then
    "Validation failed: No records to validate for " ++ expT
  else
    "Validation failed:\n Great Expectations reported failure for " ++ expT
      ++ " despite 0 failed records"

/-- The column diagnostics appended by the CSV `except` handler (quote
characters of the source f-string omitted). -/
def colNotFoundMsg (c : String) (cols : List String) : String :=
  " - Column " ++ c ++ " not found in dataset.\n Available columns: "
    ++ String.intercalate ", " cols

/-- The `try` body of one CSVValidator.validate_rules iteration: rule-dict
access, expectation construction and `batch.validate` (their combined
outcome is `geOut`), then the result bookkeeping of lines 34-60. -/
def csvTry (df : List Rec) (cols : List String) (rule : Rule)
    (geOut : Except String GEResult) (st : CsvSt) : TryOut CsvSt :=
  match rule.ge_rule with
  | Option.none => TryOut.exc "KeyError: great_expectations_rule" st
  | some g =>
      let st2 : CsvSt := some (g.expectation_type, g.kwargs)
      match geOut with
      | Except.error m => TryOut.exc m st2
      | Except.ok vr =>
          let unexpected := vr.unexpected_count.getD 0
          let missing := vr.missing_count.getD 0
          let total := vr.element_count.getD df.length
          let failed := unexpected + missing
          let rate := if total ≠ 0 then rateQ total failed else 0
          let passed := decide (failed = 0 ∧ 0 < total)
          let errm :=
            if passed then Option.none
            else some (csvErrorMessage failed total g.expectation_type)
          let sample :=
            if !passed && decide (0 < failed) then
              csvExtractFailedRecordsSample vr g.kwargs df cols
            else Option.none
          TryOut.fields
            { passed := passed, total_records := total,
              failed_records := failed, success_rate := rate,
              error_message := errm, failed_records_sample := sample } st2

/-- The CSV `except` handler (lines 62-74): worst-case counts plus column
diagnostics.  Reading `kwargs` when no iteration ever bound it raises
`UnboundLocalError`, which escapes `validate_rules`. -/
def csvHandler (df : List Rec) (cols : List String) (m : String)
    (st : CsvSt) : Except PyErr EvalFields :=
  match st with
  | Option.none => Except.error (PyErr.unboundLocal "kwargs")
  | some (_, kw) =>
      let base := "Exception during validation: " ++ m
      let em :=
        match kwGet kw "column" with
        | some (PyVal.str c) =>
            if cols.contains c then base else base ++ colNotFoundMsg c cols
        | some v => base ++ colNotFoundMsg (pyStr v) cols
        | Option.none => base
      Except.ok
        { passed := false, total_records := df.length,
          failed_records := df.length, success_rate := 0,
          error_message := some em, failed_records_sample := Option.none }

/-- The result-building block of CSVValidator (lines 76-93), which runs
after the `try/except`: column extraction from the *bound* `kwargs`
(`UnboundLocalError` if never bound, `TypeError` if a column value is
unhashable), and the dict literal whose `"kwargs"` entry re-reads
`rule["great_expectations_rule"]["kwargs"]` (`KeyError` on a malformed
rule). -/
def csvBuild (rule : Rule) (st : CsvSt) (f : EvalFields) :
    Except PyErr (RuleResult × CsvSt) :=
  match st with
  | Option.none => Except.error (PyErr.unboundLocal "kwargs")
  | some (expT, kw) =>
      match extractColumnsFromKwargs kw with
      | Except.error m => Except.error (PyErr.typeErr m)
      | Except.ok cs =>
          match rule.ge_rule with
          | Option.none => Except.error (PyErr.keyErr "great_expectations_rule")
          | some g =>
              Except.ok
                ({ rule_name := rule.name.getD expT,
                   natural_language_rule := rule.natural_language_rule.getD "",
                   passed := f.passed, expectation_type := expT,
                   kwargs := g.kwargs, columns := some cs,
                   total_records := f.total_records,
                   failed_records := f.failed_records,
                   success_rate := f.success_rate,
                   error_message := f.error_message,
                   failed_records_sample := f.failed_records_sample },
                 some (expT, kw))

/-- One iteration of `CSVValidator.validate_rules` for one rule, given the
external expectation outcome `geOut` and the bindings `st` left by earlier
iterations. -/
def csvEvalRule (df : List Rec) (cols : List String) (rule : Rule)
    (geOut : Except String GEResult) (st : CsvSt) :
    Except PyErr (RuleResult × CsvSt) :=
  match csvTry df cols rule geOut st with
  | TryOut.fields f st2 => csvBuild rule st2 f
  | TryOut.exc m st2 =>
      match csvHandler df cols m st2 with
      | Except.error e => Except.error e
      | Except.ok f => csvBuild rule st2 f

/-- `CSVValidator.validate_rules`: the loop, each rule paired with the
outcome of its external expectation evaluation. -/
def csvValidateRules (df : List Rec) (cols : List String) :
    List (Rule × Except String GEResult) → CsvSt →
    Except PyErr (List RuleResult)
  | [], _ => Except.ok []
  | (r, ge) :: rest, st =>
      match csvEvalRule df cols r ge st with
      | Except.error e => Except.error e
      | Except.ok (res, st2) =>
          match csvValidateRules df cols rest st2 with
          | Except.error e => Except.error e
          | Except.ok tail => Except.ok (res :: tail)

/-- The rows a record contributes to `df.explode(column)`: one row per list
element; pandas turns an empty list into a single NaN row; a non-list value
passes through as one row. -/
def elemsOf (r : Rec) (col : String) : List PyVal :=
  match recGet r col with
  | PyVal.list [] => [PyVal.float PyFloat.nan]
  | PyVal.list xs => xs
  | v => [v]

/-- `df.explode(column)` after tagging each record with
`__record_id__ = df.index`: the exploded rows as (record id, column value)
pairs, ids counted from `i`. -/
def explodeFrom (i : ℕ) : List Rec → String → List (ℕ × PyVal)
  | [], _ => []
  | r :: rest, col =>
      (elemsOf r col).map (fun v => (i, v)) ++ explodeFrom (i + 1) rest col

/-- The exploded frame of a dataframe, ids from 0. -/
def explodeRows (df : List Rec) (col : String) : List (ℕ × PyVal) :=
  explodeFrom 0 df col

/-- The record ids of the exploded rows failing a check. -/
def failingIds (df : List Rec) (col : String) (fails : PyVal → Bool) :
    List ℕ :=
  ((explodeRows df col).filter (fun p => fails p.2)).map Prod.fst

/-- Line 60 of json_validator.py:
`[item["__record_id__"] for item in unexpected_index_list if
"__record_id__" in item]` — the membership test raises `TypeError` on a
non-container item, and indexing a string or list by a string key raises. -/
def extractRecordIds : List PyVal → Except String (List PyVal)
  | [] => Except.ok []
  | it :: rest => do
      let b ← pyIn "__record_id__" it
      if b then do
        let v ← pyGetKey "__record_id__" it
        let tail ← extractRecordIds rest
        pure (v :: tail)
      else
        extractRecordIds rest

/-- The model of the external Great Expectations run on the exploded frame
with `result_format COMPLETE` and
`unexpected_index_column_names = ["__record_id__"]`: given the predicate
`fails` characterising an exploded row violating the check, the
`unexpected_index_list` holds one `{"__record_id__": id}` entry per
failing exploded row. -/
def geModelExploded (df : List Rec) (col : String) (fails : PyVal → Bool) :
    GEResult :=
  { unexpected_count := Option.none, missing_count := Option.none,
    element_count := Option.none,
    unexpected_index_list :=
      ((explodeRows df col).filter (fun p => fails p.2)).map
        (fun p => PyVal.dict [("__record_id__", PyVal.int (p.1 : ℤ))]),
    partial_unexpected_index_list := [], unexpected_values := [],
    partial_unexpected_values := [] }

/-- The bindings carried across JSONValidator loop iterations:
`exp_type`/`kwargs` and `validation_result`. -/
structure JSt : Type where
  expKw : Option (String × Kwargs)
  vr : Option GEResult

/-- The `try` body of one JSONValidator.validate_rules iteration
(lines 23-90): rule-dict access, the `kwargs.get("column")` lookup whose
`df[column]` access raises `KeyError` for a missing or `None` column, the
explode decision, the external run `geOut`, and either the record-level
aggregation of the exploded branch or the plain count bookkeeping. -/
def jsonTry (df : List Rec) (rule : Rule)
    (geOut : Except String GEResult) (st : JSt) : TryOut JSt :=
  match rule.ge_rule with
  | Option.none => TryOut.exc "KeyError: great_expectations_rule" st
  | some g =>
      let st2 : JSt := { st with expKw := some (g.expectation_type, g.kwargs) }
      match kwGet g.kwargs "column" with
      | Option.none => TryOut.exc "None" st2
      | some PyVal.none => TryOut.exc "None" st2
      | some (PyVal.str col) =>
          if dfHasColumn df col then
            match geOut with
            | Except.error m => TryOut.exc m st2
            | Except.ok vr =>
                let st3 : JSt := { st2 with vr := some vr }
                if doExplode df col then
                  match extractRecordIds vr.unexpected_index_list with
                  | Except.error m => TryOut.exc m st3
                  | Except.ok ids =>
                      if ids.any isUnhashable then
                        TryOut.exc "unhashable type" st3
                      else
                        let failed := (pyDistinct ids).length
                        let total := df.length
                        let passed := failed == 0
                        let rate := if 0 < total then rateQ total failed else 0
                        let errm :=
                          if passed then Option.none
                          else some ("Validation failed for "
                            ++ g.expectation_type)
                        let sample :=
                          if !passed && decide (0 < failed) then
                            jsonExtractFailedRecordsSample vr g.kwargs df
                          else Option.none
                        TryOut.fields
                          { passed := passed, total_records := total,
                            failed_records := failed, success_rate := rate,
                            error_message := errm,
                            failed_records_sample := sample } st3
                else
                  let unexpected := vr.unexpected_count.getD 0
                  let missing := vr.missing_count.getD 0
                  let total := vr.element_count.getD df.length
                  let failed := unexpected + missing
                  let passed := decide (failed = 0 ∧ 0 < total)
                  let rate := if total ≠ 0 then rateQ total failed else 0
                  let errm :=
                    if passed then Option.none
                    else some ("Validation failed for " ++ g.expectation_type)
                  let sample :=
                    if !passed && decide (0 < failed) then
                      jsonExtractFailedRecordsSample vr g.kwargs df
                    else Option.none
                  TryOut.fields
                    { passed := passed, total_records := total,
                      failed_records := failed, success_rate := rate,
                      error_message := errm,
                      failed_records_sample := sample } st3
          else TryOut.exc ("KeyError: " ++ col) st2
      | some v => TryOut.exc ("KeyError: " ++ pyStr v) st2

/-- The JSON `except` handler (lines 92-101): worst-case counts, then —
when `failed_records > 0` — a call to
`_extract_failed_records_sample(validation_result, kwargs)` that raises
`UnboundLocalError` whenever `validation_result` (or `kwargs`) was never
bound by this or an earlier iteration; that error escapes
`validate_rules`. -/
def jsonHandler (df : List Rec) (m : String) (st : JSt) :
    Except PyErr EvalFields :=
  let failed := df.length
  if 0 < failed then
    match st.vr with
    | Option.none => Except.error (PyErr.unboundLocal "validation_result")
    | some vr =>
        match st.expKw with
        | Option.none => Except.error (PyErr.unboundLocal "kwargs")
        | some (_, kw) =>
            Except.ok
              { passed := false, total_records := df.length,
                failed_records := df.length, success_rate := 0,
                error_message := some m,
                failed_records_sample :=
                  jsonExtractFailedRecordsSample vr kw df }
  else
    Except.ok
      { passed := false, total_records := df.length,
        failed_records := df.length, success_rate := 0,
        error_message := some m, failed_records_sample := Option.none }

/-- The JSON result dict (lines 103-114) plus the
`_clean_validation_result` call (line 117).  The dict has no `"columns"`
key; `rule.get("name", exp_type)` evaluates `exp_type` even when a name is
present, so an unbound `exp_type` raises. -/
def jsonBuild (rule : Rule) (st : JSt) (f : EvalFields) :
    Except PyErr (RuleResult × JSt) :=
  match st.expKw with
  | Option.none => Except.error (PyErr.unboundLocal "exp_type")
  | some (expT, kw) =>
      Except.ok
        (cleanValidationResultTyped
          { rule_name := rule.name.getD expT,
            natural_language_rule := rule.natural_language_rule.getD "",
            passed := f.passed, expectation_type := expT, kwargs := kw,
            columns := Option.none, total_records := f.total_records,
            failed_records := f.failed_records,
            success_rate := f.success_rate,
            error_message := f.error_message,
            failed_records_sample := f.failed_records_sample },
         st)

/-- One iteration of `JSONValidator.validate_rules` for one rule. -/
def jsonEvalRule (df : List Rec) (rule : Rule)
    (geOut : Except String GEResult) (st : JSt) :
    Except PyErr (RuleResult × JSt) :=
  match jsonTry df rule geOut st with
  | TryOut.fields f st2 => jsonBuild rule st2 f
  | TryOut.exc m st2 =>
      match jsonHandler df m st2 with
      | Except.error e => Except.error e
      | Except.ok f => jsonBuild rule st2 f

/-- `JSONValidator.validate_rules`: the loop, each rule paired with the
outcome of its external expectation evaluation. -/
def jsonValidateRules (df : List Rec) :
    List (Rule × Except String GEResult) → JSt →
    Except PyErr (List RuleResult)
  | [], _ => Except.ok []
  | (r, ge) :: rest, st =>
      match jsonEvalRule df r ge st with
      | Except.error e => Except.error e
      | Except.ok (res, st2) =>
          match jsonValidateRules df rest st2 with
          | Except.error e => Except.error e
          | Except.ok tail => Except.ok (res :: tail)

/-- Python iteration (`for x in value`): list elements, string characters,
dict keys; scalars raise `TypeError`. -/
def pyIter : PyVal → Except String (List PyVal)
  | PyVal.list xs => Except.ok xs
  | PyVal.str s =>
      Except.ok (s.toList.map (fun c => PyVal.str (String.singleton c)))
  | PyVal.dict kvs => Except.ok (kvs.map (fun kv => PyVal.str kv.1))
  | _ => Except.error "is not iterable"

mutual

/-- `json.dumps` on the modelled universe, default options: `allow_nan`
emits the non-JSON tokens `NaN`/`Infinity`/`-Infinity`; numpy integers are
rejected (`Except.error`); the text of finite float literals and string
escaping are abstracted. -/
def jsonDumps : PyVal → Except Unit String
  | PyVal.none => Except.ok "null"
  | PyVal.bool b => Except.ok (cond b "true" "false")
  | PyVal.int n => Except.ok (toString n)
  | PyVal.npInt _ => Except.error ()
  | PyVal.float (PyFloat.num q) => Except.ok (toString q)
  | PyVal.float PyFloat.nan => Except.ok "NaN"
  | PyVal.float PyFloat.inf => Except.ok "Infinity"
  | PyVal.float PyFloat.ninf => Except.ok "-Infinity"
  | PyVal.npFloat (PyFloat.num q) => Except.ok (toString q)
  | PyVal.npFloat PyFloat.nan => Except.ok "NaN"
  | PyVal.npFloat PyFloat.inf => Except.ok "Infinity"
  | PyVal.npFloat PyFloat.ninf => Except.ok "-Infinity"
  | PyVal.str s => Except.ok ("\"" ++ s ++ "\"")
  | PyVal.list xs => do
      let ts ← jsonDumpsList xs
      Except.ok ("[" ++ String.intercalate ", " ts ++ "]")
  | PyVal.dict kvs => do
      let ts ← jsonDumpsKVs kvs
      Except.ok ("\x7b" ++ String.intercalate ", " ts ++ "\x7d")

/-- `jsonDumps` over list elements. -/
def jsonDumpsList : List PyVal → Except Unit (List String)
  | [] => Except.ok []
  | v :: t => do
      let s ← jsonDumps v
      let ts ← jsonDumpsList t
      Except.ok (s :: ts)

/-- `jsonDumps` over dict entries. -/
def jsonDumpsKVs : List (String × PyVal) → Except Unit (List String)
  | [] => Except.ok []
  | (k, v) :: t => do
      let s ← jsonDumps v
      let ts ← jsonDumpsKVs t
      Except.ok (("\"" ++ k ++ "\": " ++ s) :: ts)

end

/-- `mapping.get(key, default)`. -/
def dictGet (d : List (String × PyVal)) (k : String) (dflt : PyVal) : PyVal :=
  (d.lookup k).getD dflt

/-- The minimal safe result of `_clean_validation_result` (lines 84-96):
built when the cleaned dict still fails `json.dumps` — scalar fields carried
over with defaults, `failed_records_sample` dropped, and a `"columns"` key
always written (defaulting to `[]` when the cleaned dict had none). -/
def safeResultDict (c : List (String × PyVal)) : List (String × PyVal) :=
  [("rule_name", dictGet c "rule_name" (PyVal.str "Unknown")),
   ("natural_language_rule", dictGet c "natural_language_rule" (PyVal.str "")),
   ("passed", dictGet c "passed" (PyVal.bool false)),
   ("expectation_type", dictGet c "expectation_type" (PyVal.str "")),
   ("kwargs", dictGet c "kwargs" (PyVal.dict [])),
   ("columns", dictGet c "columns" (PyVal.list [])),
   ("total_records", dictGet c "total_records" (PyVal.int 0)),
   ("failed_records", dictGet c "failed_records" (PyVal.int 0)),
   ("success_rate", dictGet c "success_rate" (PyVal.float (PyFloat.num 0))),
   ("error_message", dictGet c "error_message" (PyVal.str "Serialization error")),
   ("failed_records_sample", PyVal.none)]

/-- `BaseValidator._clean_validation_result` on a raw result dict: the
sample entry (when not `None`) is iterated and cleaned per record, every
other entry passes through `_ensure_json_serializable`, and the
`json.dumps` round-trip check replaces the dict by the minimal safe result
on failure.  Iterating a non-iterable sample raises out of the method. -/
def cleanValidationResult (result : List (String × PyVal)) :
    Except String (List (String × PyVal)) := do
  let cleaned ← result.mapM (fun kv =>
    if kv.1 == "failed_records_sample" then
      match kv.2 with
      | PyVal.none => pure (kv.1, ensureJsonSerializable kv.2)
      | v => do
          let recs ← pyIter v
          pure (kv.1, PyVal.list (recs.map cleanSampleRecord))
    else pure (kv.1, ensureJsonSerializable kv.2))
  if pySerializableKVs cleaned then pure cleaned
  else pure (safeResultDict cleaned)

/-- The summary block of the validate_data endpoint
(data_validation.py lines 190-209). -/
structure ValidationSummary : Type where
  total_rules : ℕ
  passed_rules : ℕ
  failed_rules : ℕ
  overall_success_rate : ℚ
  total_records_processed : ℕ
  total_failed_records : ℕ
deriving DecidableEq

/-- The response assembled by validate_data: summary, per-rule results,
overall status. -/
structure ValidationResponse : Type where
  summary : ValidationSummary
  results : List RuleResult
  status : String

/-- An HTTPException raised by the endpoint. -/
inductive HTTPError : Type where
  | httpExc (code : ℕ) (detail : String)
deriving DecidableEq

/-- Summary statistics and overall status (lines 190-209): rule counts,
record-weighted totals, the overall success rate, and the
Passed/Failed/Imperfect status. -/
def computeSummary (results : List RuleResult) : ValidationSummary × String :=
  let total_rules := results.length
  let passed_rules := results.countP (fun r => r.passed)
  let failed_rules := total_rules - passed_rules
  let trp := (results.map (fun r => r.total_records)).sum
  let tfr := (results.map (fun r => r.failed_records)).sum
  let rate := if 0 < trp then rateQ trp tfr else 0
  let status :=
    if failed_rules = 0 then "Passed"
    else if passed_rules = 0 then "Failed"
    else "Imperfect"
  ({ total_rules := total_rules, passed_rules := passed_rules,
     failed_rules := failed_rules, overall_success_rate := rate,
     total_records_processed := trp, total_failed_records := tfr }, status)

/-- The per-result view the endpoint builds
(`ValidationRuleResult(columns=result.get("columns", []), ...)`): every
`.get` default is a no-op on the typed record except `columns`, absent
from JSON-validator results and defaulted to `[]`. -/
def endpointView (r : RuleResult) : RuleResult :=
  { r with columns := some (r.columns.getD []) }

/-- The endpoint body from `results = validator.validate_rules(rules)` on
(lines 166-259), persistence and notification elided: the
`if not results: raise HTTPException(404, ...)` guard, then summary and
response assembly. -/
def validateDataBody (results : List RuleResult) :
    Except HTTPError ValidationResponse :=
  if results.isEmpty then
    Except.error (HTTPError.httpExc 404 "No validation results found")
  else
    let s := computeSummary results
    Except.ok
      { summary := s.1, results := results.map endpointView, status := s.2 }

/-- `validate_data` wraps its body in `except Exception as e:
raise HTTPException(500, f"Validation error: {str(e)}")`; an HTTPException
raised inside (such as the empty-results 404) is itself an `Exception`,
so it re-surfaces as a 500 whose detail embeds `str(e) = "code: detail"`. -/
def validateData (results : List RuleResult) :
    Except HTTPError ValidationResponse :=
  match validateDataBody results with
  | Except.ok r => Except.ok r
  | Except.error (HTTPError.httpExc c d) =>
      Except.error
        (HTTPError.httpExc 500 ("Validation error: " ++ toString c ++ ": " ++ d))

/-- The evaluation returned a result (no error escaped). -/
def exOk {ε α : Type} : Except ε α → Bool
  | Except.ok _ => true
  | Except.error _ => false

/-- The rule result of a successful per-rule evaluation (default record
when the evaluation escaped with an error). -/
def okRes {σ : Type} (e : Except PyErr (RuleResult × σ)) : RuleResult :=
  match e with
  | Except.ok p => p.1
  | Except.error _ => default

/-- A one-record dataframe with a single integer column `a`. -/
def sampleDf : List Rec := [[("a", PyVal.int 1)]]

/-- The column list of `sampleDf`. -/
def sampleCols : List String := ["a"]

/-- A well-formed not-null rule targeting column `a`. -/
def sampleRule : Rule :=
  { name := some "price_not_null",
    natural_language_rule := some "a must not be null",
    ge_rule := some
      { expectation_type := "expect_column_values_to_not_be_null",
        kwargs := [("column", PyVal.str "a")] } }

/-- An external run reporting no unexpected and no missing values over one
element. -/
def geOkOne : GEResult :=
  { unexpected_count := some 0, missing_count := some 0,
    element_count := some 1, unexpected_index_list := [],
    partial_unexpected_index_list := [], unexpected_values := [],
    partial_unexpected_values := [] }

/-- An external run reporting one unexpected value over one element. -/
def geFailOne : GEResult :=
  { unexpected_count := some 1, missing_count := some 0,
    element_count := some 1, unexpected_index_list := [PyVal.int 0],
    partial_unexpected_index_list := [], unexpected_values := [PyVal.int 7],
    partial_unexpected_values := [] }

/-- An external result whose `unexpected_index_list` holds a float NaN:
`int(item)` raises during index collection. -/
def geNanIdx : GEResult :=
  { unexpected_count := Option.none, missing_count := Option.none,
    element_count := Option.none,
    unexpected_index_list := [PyVal.float PyFloat.nan],
    partial_unexpected_index_list := [], unexpected_values := [],
    partial_unexpected_values := [] }

/-- Fresh JSON-validator bindings (first loop iteration). -/
def jstNone : JSt := { expKw := Option.none, vr := Option.none }

/-- JSON-validator bindings after an earlier `batch.validate` bound
`validation_result`. -/
def jstBound : JSt := { expKw := Option.none, vr := some geOkOne }

/-- A rule whose kwargs carry no `"column"` key (a table-level check). -/
def sampleRuleNoColumn : Rule :=
  { name := some "row_count", natural_language_rule := Option.none,
    ge_rule := some
      { expectation_type := "expect_table_row_count_to_be_between",
        kwargs := [("min_value", PyVal.int 1)] } }

/-- A two-record JSON dataframe whose `tags` column holds a list in the
first record. -/
def explodeDf : List Rec :=
  [[("tags", PyVal.list [PyVal.str "a", PyVal.str "b"])],
   [("tags", PyVal.str "c")]]

/-- A rule targeting the `tags` column of `explodeDf`. -/
def explodeRule : Rule :=
  { name := some "tags_in_set", natural_language_rule := Option.none,
    ge_rule := some
      { expectation_type := "expect_column_values_to_be_in_set",
        kwargs := [("column", PyVal.str "tags")] } }

/-- The element-level check violated exactly by the value `"b"`. -/
def failsIsB : PyVal → Bool := fun v => pyBEq v (PyVal.str "b")

/-- The report claimed for an empty rule list: zero counts, status
`"Passed"`, no results. -/
def claimedEmptyReport : ValidationResponse :=
  { summary :=
      { total_rules := 0, passed_rules := 0, failed_rules := 0,
        overall_success_rate := 0, total_records_processed := 0,
        total_failed_records := 0 },
    results := [], status := "Passed" }

/-- A result dict whose sample holds a plain-float infinity and NaN. -/
def infNanResult : List (String × PyVal) :=
  [("failed_records_sample",
    PyVal.list [PyVal.dict
      [("x", PyVal.float PyFloat.inf), ("y", PyVal.float PyFloat.nan)]])]

/-- kwargs naming columns under two keys with an overlap. -/
def overlapKwargs : Kwargs :=
  [("column", PyVal.str "a"),
   ("column_list", PyVal.list [PyVal.str "b", PyVal.str "a"])]

/-- A rule built over `overlapKwargs`. -/
def overlapRule : Rule :=
  { name := some "multi", natural_language_rule := Option.none,
    ge_rule := some
      { expectation_type := "expect_compound", kwargs := overlapKwargs } }

/-! ### Helper lemmas -/

theorem cleanTyped_passed (r : RuleResult) :
    (cleanValidationResultTyped r).passed = r.passed := by
  unfold cleanValidationResultTyped
  cases r.failed_records_sample
  · rfl
  · simp only [Option.map_some]
    split
    all_goals try rfl
    all_goals split <;> rfl

theorem cleanTyped_total (r : RuleResult) :
    (cleanValidationResultTyped r).total_records = r.total_records := by
  unfold cleanValidationResultTyped
  cases r.failed_records_sample
  · rfl
  · simp only [Option.map_some]
    split
    all_goals try rfl
    all_goals split <;> rfl

theorem cleanTyped_failed (r : RuleResult) :
    (cleanValidationResultTyped r).failed_records = r.failed_records := by
  unfold cleanValidationResultTyped
  cases r.failed_records_sample
  · rfl
  · simp only [Option.map_some]
    split
    all_goals try rfl
    all_goals split <;> rfl

theorem cleanTyped_rate (r : RuleResult) :
    (cleanValidationResultTyped r).success_rate = r.success_rate := by
  unfold cleanValidationResultTyped
  cases r.failed_records_sample
  · rfl
  · simp only [Option.map_some]
    split
    all_goals try rfl
    all_goals split <;> rfl

theorem cleanTyped_columns_of_none (r : RuleResult)
    (h : r.columns = Option.none) :
    (cleanValidationResultTyped r).columns = Option.none ∨
      (cleanValidationResultTyped r).columns = some [] := by
  unfold cleanValidationResultTyped
  rw [h]
  cases r.failed_records_sample
  · left
    rfl
  · simp only [Option.map_some]
    split
    all_goals try (left ; rfl)
    all_goals split
    all_goals first
      | (left ; rfl)
      | (right ; rfl)

theorem rateQ_self (t : ℕ) : rateQ t t = 0 := by
  simp [rateQ]

theorem ifRate_self (t : ℕ) : (if 0 < t then rateQ t t else 0) = (0 : ℚ) := by
  split <;> simp [rateQ_self]

theorem decide_zero_pos (n : ℕ) : decide (n = 0 ∧ 0 < n) = false := by
  cases n <;> simp

theorem doExplode_length_pos (df : List Rec) (col : String)
    (h : doExplode df col = true) : 0 < df.length := by
  unfold doExplode at h
  rcases List.any_eq_true.mp h with ⟨r, hr, _⟩
  exact List.length_pos.mpr (List.ne_nil_of_mem hr)

theorem csvHandler_ok (df : List Rec) (cols : List String) (m : String)
    (st : CsvSt) (f : EvalFields) (h : csvHandler df cols m st = Except.ok f) :
    f.passed = false ∧ f.total_records = df.length ∧
      f.failed_records = df.length ∧ f.success_rate = 0 := by
  unfold csvHandler at h
  repeat' split at h
  all_goals first
    | exact Except.noConfusion h
    | (injection h with h2 ; subst h2 ; exact ⟨rfl, rfl, rfl, rfl⟩)

theorem jsonHandler_ok (df : List Rec) (m : String) (st : JSt)
    (f : EvalFields) (h : jsonHandler df m st = Except.ok f) :
    f.passed = false ∧ f.total_records = df.length ∧
      f.failed_records = df.length ∧ f.success_rate = 0 := by
  unfold jsonHandler at h
  dsimp only at h
  repeat' split at h
  all_goals first
    | exact Except.noConfusion h
    | (injection h with h2 ; subst h2 ; exact ⟨rfl, rfl, rfl, rfl⟩)

theorem csvBuild_ok (rule : Rule) (st : CsvSt) (f : EvalFields)
    (p : RuleResult × CsvSt) (h : csvBuild rule st f = Except.ok p) :
    p.1.passed = f.passed ∧ p.1.total_records = f.total_records ∧
      p.1.failed_records = f.failed_records ∧
      p.1.success_rate = f.success_rate := by
  unfold csvBuild at h
  repeat' split at h
  all_goals first
    | exact Except.noConfusion h
    | (injection h with h2 ; subst h2 ; exact ⟨rfl, rfl, rfl, rfl⟩)

theorem jsonBuild_ok (rule : Rule) (st : JSt) (f : EvalFields)
    (p : RuleResult × JSt) (h : jsonBuild rule st f = Except.ok p) :
    p.1.passed = f.passed ∧ p.1.total_records = f.total_records ∧
      p.1.failed_records = f.failed_records ∧
      p.1.success_rate = f.success_rate := by
  unfold jsonBuild at h
  repeat' split at h
  all_goals first
    | exact Except.noConfusion h
    | (injection h with h2 ; subst h2 ;
       exact ⟨by rw [cleanTyped_passed], by rw [cleanTyped_total],
         by rw [cleanTyped_failed], by rw [cleanTyped_rate]⟩)

theorem beq_zero_decide (a n : ℕ) (h : 0 < n) :
    (a == 0) = decide (a = 0 ∧ 0 < n) := by
  cases a <;> simp [h]

theorem csvTry_fields_inv (df : List Rec) (cols : List String) (rule : Rule)
    (ge : Except String GEResult) (st : CsvSt) (f : EvalFields) (st2 : CsvSt)
    (h : csvTry df cols rule ge st = TryOut.fields f st2) :
    f.passed = decide (f.failed_records = 0 ∧ 0 < f.total_records) ∧
      f.success_rate =
        (if 0 < f.total_records then rateQ f.total_records f.failed_records
         else 0) := by
  unfold csvTry at h
  repeat' split at h
  all_goals first
    | exact TryOut.noConfusion h
    | (injection h with h1 h2 ; subst h1 ;
       exact ⟨rfl, by simp [Nat.pos_iff_ne_zero]⟩)

theorem jsonTry_fields_inv (df : List Rec) (rule : Rule)
    (ge : Except String GEResult) (st : JSt) (f : EvalFields) (st2 : JSt)
    (h : jsonTry df rule ge st = TryOut.fields f st2) :
    f.passed = decide (f.failed_records = 0 ∧ 0 < f.total_records) ∧
      f.success_rate =
        (if 0 < f.total_records then rateQ f.total_records f.failed_records
         else 0) := by
  unfold jsonTry at h
  repeat' split at h
  all_goals first
    | exact TryOut.noConfusion h
    | (injection h with h1 h2 ; subst h1 ;
       refine ⟨?_, ?_⟩ <;>
         first
           | rfl
           | exact beq_zero_decide _ _ (doExplode_length_pos _ _ (by assumption))
           | simp [Nat.pos_iff_ne_zero])

theorem csvOk_inv (df : List Rec) (cols : List String) (rule : Rule)
    (ge : Except String GEResult) (st : CsvSt)
    (h : exOk (csvEvalRule df cols rule ge st) = true) :
    (okRes (csvEvalRule df cols rule ge st)).passed =
        decide ((okRes (csvEvalRule df cols rule ge st)).failed_records = 0 ∧
          0 < (okRes (csvEvalRule df cols rule ge st)).total_records) ∧
      (okRes (csvEvalRule df cols rule ge st)).success_rate =
        (if 0 < (okRes (csvEvalRule df cols rule ge st)).total_records then
          rateQ (okRes (csvEvalRule df cols rule ge st)).total_records
            (okRes (csvEvalRule df cols rule ge st)).failed_records
         else 0) := by
  cases he : csvEvalRule df cols rule ge st with
  | error e =>
      rw [he] at h
      exact absurd h (by simp [exOk])
  | ok p =>
      simp only [okRes]
      unfold csvEvalRule at he
      cases ht : csvTry df cols rule ge st <;> rw [ht] at he <;> dsimp only at he
      case fields f st2 =>
        obtain ⟨hp, htot, hfail, hrate⟩ := csvBuild_ok rule st2 f p he
        obtain ⟨hp2, hr2⟩ := csvTry_fields_inv df cols rule ge st f st2 ht
        constructor
        · simp only [hp, hp2, hfail, htot]
        · simp only [hrate, hr2, hfail, htot]
      case exc m st2 =>
        cases hh : csvHandler df cols m st2 <;> rw [hh] at he <;> dsimp only at he
        · exact Except.noConfusion he
        case ok f =>
          obtain ⟨hp, htot, hfail, hrate⟩ := csvBuild_ok rule st2 f p he
          obtain ⟨hpf, htf, hff, hrf⟩ := csvHandler_ok df cols m st2 f hh
          constructor
          · simp only [hp, hpf, hfail, hff, htot, htf, decide_zero_pos]
          · simp only [hrate, hrf, hfail, hff, htot, htf, ifRate_self]

theorem jsonOk_inv (df : List Rec) (rule : Rule)
    (ge : Except String GEResult) (st : JSt)
    (h : exOk (jsonEvalRule df rule ge st) = true) :
    (okRes (jsonEvalRule df rule ge st)).passed =
        decide ((okRes (jsonEvalRule df rule ge st)).failed_records = 0 ∧
          0 < (okRes (jsonEvalRule df rule ge st)).total_records) ∧
      (okRes (jsonEvalRule df rule ge st)).success_rate =
        (if 0 < (okRes (jsonEvalRule df rule ge st)).total_records then
          rateQ (okRes (jsonEvalRule df rule ge st)).total_records
            (okRes (jsonEvalRule df rule ge st)).failed_records
         else 0) := by
  cases he : jsonEvalRule df rule ge st with
  | error e =>
      rw [he] at h
      exact absurd h (by simp [exOk])
  | ok p =>
      simp only [okRes]
      unfold jsonEvalRule at he
      cases ht : jsonTry df rule ge st <;> rw [ht] at he <;> dsimp only at he
      case fields f st2 =>
        obtain ⟨hp, htot, hfail, hrate⟩ := jsonBuild_ok rule st2 f p he
        obtain ⟨hp2, hr2⟩ := jsonTry_fields_inv df rule ge st f st2 ht
        constructor
        · simp only [hp, hp2, hfail, htot]
        · simp only [hrate, hr2, hfail, htot]
      case exc m st2 =>
        cases hh : jsonHandler df m st2 <;> rw [hh] at he <;> dsimp only at he
        · exact Except.noConfusion he
        case ok f =>
          obtain ⟨hp, htot, hfail, hrate⟩ := jsonBuild_ok rule st2 f p he
          obtain ⟨hpf, htf, hff, hrf⟩ := jsonHandler_ok df m st2 f hh
          constructor
          · simp only [hp, hpf, hfail, hff, htot, htf, decide_zero_pos]
          · simp only [hrate, hrf, hfail, hff, htot, htf, ifRate_self]

/-! ### Claim theorems -/

/-- C1: for every RuleResult produced by either validator (Tabular/CSV or
Nested/JSON) for any rule — over any dataframe, any rule dict, any outcome
of the external expectation run, and any bindings left by earlier loop
iterations — the field `passed` is true if and only if
`failed_records == 0` and `total_records > 0`. -/
theorem C1_passed_iff_invariant :
    (∀ (df : List Rec) (cols : List String) (rule : Rule)
        (ge : Except String GEResult) (st : CsvSt),
        exOk (csvEvalRule df cols rule ge st) = true →
        ((okRes (csvEvalRule df cols rule ge st)).passed = true ↔
          (okRes (csvEvalRule df cols rule ge st)).failed_records = 0 ∧
            0 < (okRes (csvEvalRule df cols rule ge st)).total_records)) ∧
    (∀ (df : List Rec) (rule : Rule) (ge : Except String GEResult) (st : JSt),
        exOk (jsonEvalRule df rule ge st) = true →
        ((okRes (jsonEvalRule df rule ge st)).passed = true ↔
          (okRes (jsonEvalRule df rule ge st)).failed_records = 0 ∧
            0 < (okRes (jsonEvalRule df rule ge st)).total_records)) := by
  constructor
  · intro df cols rule ge st h
    rw [(csvOk_inv df cols rule ge st h).1]
    exact decide_eq_true_iff
  · intro df rule ge st h
    rw [(jsonOk_inv df rule ge st h).1]
    exact decide_eq_true_iff

/-- C1 witness: the invariant instantiated at a concrete passing CSV run
and a concrete passing JSON run. -/
theorem C1_passed_iff_invariant_witness :
    ((okRes (csvEvalRule sampleDf sampleCols sampleRule (Except.ok geOkOne)
        Option.none)).passed = true ↔
      (okRes (csvEvalRule sampleDf sampleCols sampleRule (Except.ok geOkOne)
        Option.none)).failed_records = 0 ∧
        0 < (okRes (csvEvalRule sampleDf sampleCols sampleRule
          (Except.ok geOkOne) Option.none)).total_records) ∧
    ((okRes (jsonEvalRule sampleDf sampleRule (Except.ok geOkOne)
        jstNone)).passed = true ↔
      (okRes (jsonEvalRule sampleDf sampleRule (Except.ok geOkOne)
        jstNone)).failed_records = 0 ∧
        0 < (okRes (jsonEvalRule sampleDf sampleRule (Except.ok geOkOne)
          jstNone)).total_records) :=
  ⟨C1_passed_iff_invariant.1 sampleDf sampleCols sampleRule
      (Except.ok geOkOne) Option.none rfl,
   C1_passed_iff_invariant.2 sampleDf sampleRule (Except.ok geOkOne)
      jstNone rfl⟩

/-- C5: for every RuleResult produced by either validator, `success_rate`
equals `100.0 * (total_records - failed_records) / total_records` when
`total_records > 0`, and equals `0.0` when `total_records == 0`. -/
theorem C5_success_rate_formula :
    (∀ (df : List Rec) (cols : List String) (rule : Rule)
        (ge : Except String GEResult) (st : CsvSt),
        exOk (csvEvalRule df cols rule ge st) = true →
        (okRes (csvEvalRule df cols rule ge st)).success_rate =
          (if 0 < (okRes (csvEvalRule df cols rule ge st)).total_records then
            100 * ((((okRes (csvEvalRule df cols rule ge st)).total_records
                : ℚ) -
              ((okRes (csvEvalRule df cols rule ge st)).failed_records : ℚ)) /
              ((okRes (csvEvalRule df cols rule ge st)).total_records : ℚ))
           else 0)) ∧
    (∀ (df : List Rec) (rule : Rule) (ge : Except String GEResult) (st : JSt),
        exOk (jsonEvalRule df rule ge st) = true →
        (okRes (jsonEvalRule df rule ge st)).success_rate =
          (if 0 < (okRes (jsonEvalRule df rule ge st)).total_records then
            100 * ((((okRes (jsonEvalRule df rule ge st)).total_records
                : ℚ) -
              ((okRes (jsonEvalRule df rule ge st)).failed_records : ℚ)) /
              ((okRes (jsonEvalRule df rule ge st)).total_records : ℚ))
           else 0)) := by
  constructor
  · intro df cols rule ge st h
    exact (csvOk_inv df cols rule ge st h).2
  · intro df rule ge st h
    exact (jsonOk_inv df rule ge st h).2

/-- C5 witness: the success-rate formula instantiated at a concrete failing
CSV run and a concrete failing JSON run. -/
theorem C5_success_rate_formula_witness :
    ((okRes (csvEvalRule sampleDf sampleCols sampleRule (Except.ok geFailOne)
        Option.none)).success_rate =
      (if 0 < (okRes (csvEvalRule sampleDf sampleCols sampleRule
          (Except.ok geFailOne) Option.none)).total_records then
        100 * ((((okRes (csvEvalRule sampleDf sampleCols sampleRule
            (Except.ok geFailOne) Option.none)).total_records : ℚ) -
          ((okRes (csvEvalRule sampleDf sampleCols sampleRule
            (Except.ok geFailOne) Option.none)).failed_records : ℚ)) /
          ((okRes (csvEvalRule sampleDf sampleCols sampleRule
            (Except.ok geFailOne) Option.none)).total_records : ℚ))
       else 0)) ∧
    ((okRes (jsonEvalRule sampleDf sampleRule (Except.ok geFailOne)
        jstNone)).success_rate =
      (if 0 < (okRes (jsonEvalRule sampleDf sampleRule (Except.ok geFailOne)
          jstNone)).total_records then
        100 * ((((okRes (jsonEvalRule sampleDf sampleRule
            (Except.ok geFailOne) jstNone)).total_records : ℚ) -
          ((okRes (jsonEvalRule sampleDf sampleRule (Except.ok geFailOne)
            jstNone)).failed_records : ℚ)) /
          ((okRes (jsonEvalRule sampleDf sampleRule (Except.ok geFailOne)
            jstNone)).total_records : ℚ))
       else 0)) :=
  ⟨C5_success_rate_formula.1 sampleDf sampleCols sampleRule
      (Except.ok geFailOne) Option.none rfl,
   C5_success_rate_formula.2 sampleDf sampleRule (Except.ok geFailOne)
      jstNone rfl⟩

/-- C3 (code bug): the JSON validator's `except` handler itself raises.
With a nonempty dataset, a first rule whose expectation evaluation raises
(here: the external lookup fails before `batch.validate` ever ran) makes
the handler call `_extract_failed_records_sample(validation_result, ...)`
with `validation_result` unbound: the `UnboundLocalError` escapes
`validate_rules`, so neither this rule nor the — perfectly fine — second
rule yields any RuleResult, contradicting the claimed isolation. -/
theorem C3_handler_unbound_local_crash :
    jsonValidateRules sampleDf
      [(sampleRule,
        Except.error "module gx.expectations has no attribute ExpectUnknown"),
       (sampleRule, Except.ok geOkOne)] jstNone =
      Except.error (PyErr.unboundLocal "validation_result") := rfl

/-- C4 counterexample: for an empty rule list `validate_rules` returns `[]`
and the endpoint raises (the 404 guard, re-wrapped as a 500 by the
catch-all), so no ValidationReport — in particular not the claimed one with
`total_rules=0` and status `"Passed"` — is produced. -/
theorem C4_empty_rules_counterexample :
    validateData [] = Except.error (HTTPError.httpExc 500
        "Validation error: 404: No validation results found") ∧
      validateData [] ≠ Except.ok claimedEmptyReport :=
  ⟨rfl, fun h => Except.noConfusion h⟩

/-- C4 amended: for an empty rule list the validation endpoint does not
produce a report: the `if not results` guard raises HTTPException 404
("No validation results found"), which the surrounding catch-all re-raises
as HTTPException 500 with detail
"Validation error: 404: No validation results found". -/
theorem C4_empty_rules_http_error (results : List RuleResult)
    (h : results = []) :
    validateData results = Except.error (HTTPError.httpExc 500
      "Validation error: 404: No validation results found") := by
  subst h
  rfl

/-- C4 witness: the amended statement applied at the empty result list. -/
theorem C4_empty_rules_http_error_witness :
    validateData [] = Except.error (HTTPError.httpExc 500
      "Validation error: 404: No validation results found") :=
  C4_empty_rules_http_error [] rfl

/-- C6: for every list of finalized RuleResults the aggregation computes a
record-weighted overall success rate —
`100.0 * (total_records_processed - total_failed_records) /
total_records_processed` when `total_records_processed > 0`, else `0.0` —
and the status is "Passed" when `failed_rules == 0`, "Failed" when
`passed_rules == 0`, and "Imperfect" otherwise. -/
theorem C6_aggregate_formula (results : List RuleResult) :
    (computeSummary results).1.overall_success_rate =
      (if 0 < (results.map (fun r => r.total_records)).sum then
        100 * ((((((results.map (fun r => r.total_records)).sum : ℕ)) : ℚ) -
          ((((results.map (fun r => r.failed_records)).sum : ℕ)) : ℚ)) /
          ((((results.map (fun r => r.total_records)).sum : ℕ)) : ℚ))
       else 0) ∧
    (computeSummary results).2 =
      (if results.length - results.countP (fun r => r.passed) = 0 then
        "Passed"
       else if results.countP (fun r => r.passed) = 0 then "Failed"
       else "Imperfect") ∧
    (computeSummary results).1.total_records_processed =
      (results.map (fun r => r.total_records)).sum ∧
    (computeSummary results).1.total_failed_records =
      (results.map (fun r => r.failed_records)).sum :=
  ⟨rfl, rfl, rfl, rfl⟩

theorem jsonHandler_isOk (df : List Rec) (m : String) (st : JSt)
    (vr : GEResult) (q : String × Kwargs) (hvr : st.vr = some vr)
    (hek : st.expKw = some q) : exOk (jsonHandler df m st) = true := by
  obtain ⟨a, b⟩ := q
  unfold jsonHandler
  dsimp only
  split
  · rw [hvr]
    dsimp only
    rw [hek]
    rfl
  · rfl

/-- C10 counterexample: a first rule whose kwargs carry no `"column"` key,
over a nonempty dataset, does not yield the claimed failing RuleResult —
the `except` handler reads the never-bound `validation_result` and
`validate_rules` aborts with an `UnboundLocalError`. -/
theorem C10_no_column_counterexample :
    jsonValidateRules sampleDf [(sampleRuleNoColumn, Except.ok geOkOne)]
      jstNone = Except.error (PyErr.unboundLocal "validation_result") := rfl

/-- C10 amended: for the Nested/JSON validator, a rule whose parameters
contain no `"column"` key raises `KeyError` at the lookup under key `None`,
and is reported as a failed RuleResult with `passed=False`,
`failed_records == total_records ==` the dataset record count and
`success_rate == 0.0` only when `validation_result` is already bound from
an earlier rule of the same call, or when the dataset is empty (the sample
extraction is skipped); otherwise the handler itself raises
`UnboundLocalError` and `validate_rules` aborts with no results at all. -/
theorem C10_no_column_amended :
    (∀ (df : List Rec) (rule : Rule) (g : GERule)
        (ge : Except String GEResult) (st : JSt) (vr : GEResult),
        rule.ge_rule = some g → kwGet g.kwargs "column" = Option.none →
        st.vr = some vr →
        exOk (jsonEvalRule df rule ge st) = true ∧
        (okRes (jsonEvalRule df rule ge st)).passed = false ∧
        (okRes (jsonEvalRule df rule ge st)).failed_records = df.length ∧
        (okRes (jsonEvalRule df rule ge st)).total_records = df.length ∧
        (okRes (jsonEvalRule df rule ge st)).success_rate = 0) ∧
    (∀ (df : List Rec) (rule : Rule) (g : GERule)
        (ge : Except String GEResult) (st : JSt),
        rule.ge_rule = some g → kwGet g.kwargs "column" = Option.none →
        df ≠ [] → st.vr = Option.none →
        jsonEvalRule df rule ge st =
          Except.error (PyErr.unboundLocal "validation_result")) ∧
    (∀ (rule : Rule) (g : GERule) (ge : Except String GEResult) (st : JSt),
        rule.ge_rule = some g → kwGet g.kwargs "column" = Option.none →
        exOk (jsonEvalRule [] rule ge st) = true ∧
        (okRes (jsonEvalRule [] rule ge st)).passed = false ∧
        (okRes (jsonEvalRule [] rule ge st)).failed_records = 0 ∧
        (okRes (jsonEvalRule [] rule ge st)).total_records = 0 ∧
        (okRes (jsonEvalRule [] rule ge st)).success_rate = 0) := by
  refine ⟨?_, ?_, ?_⟩
  · intro df rule g ge st vr hge hcol hvr
    have ht : jsonTry df rule ge st =
        TryOut.exc "None" { st with expKw := some (g.expectation_type, g.kwargs) } := by
      unfold jsonTry
      rw [hge]
      dsimp only
      rw [hcol]
    have hvr2 : JSt.vr { st with expKw := some (g.expectation_type, g.kwargs) } = some vr := hvr
    have hek2 : JSt.expKw { st with expKw := some (g.expectation_type, g.kwargs) } =
        some (g.expectation_type, g.kwargs) := rfl
    have heval : jsonEvalRule df rule ge st =
        (match jsonHandler df "None" { st with expKw := some (g.expectation_type, g.kwargs) } with
         | Except.error e => Except.error e
         | Except.ok f => jsonBuild rule { st with expKw := some (g.expectation_type, g.kwargs) } f) := by
      unfold jsonEvalRule
      rw [ht]
    cases hh : jsonHandler df "None" { st with expKw := some (g.expectation_type, g.kwargs) } with
    | error e =>
        have hok := jsonHandler_isOk df "None" _ vr _ hvr2 hek2
        rw [hh] at hok
        exact absurd hok (by simp [exOk])
    | ok f =>
        obtain ⟨hpf, htf, hff, hrf⟩ := jsonHandler_ok df "None" _ f hh
        rw [hh] at heval
        dsimp only at heval
        cases hbv : jsonBuild rule { st with expKw := some (g.expectation_type, g.kwargs) } f with
        | error e2 =>
            unfold jsonBuild at hbv
            rw [hek2] at hbv
            exact Except.noConfusion hbv
        | ok p =>
            obtain ⟨hp, htot2, hfail2, hrate2⟩ := jsonBuild_ok rule _ f p hbv
            rw [hbv] at heval
            rw [heval]
            refine ⟨rfl, ?_, ?_, ?_, ?_⟩
            · simp only [okRes]
              rw [hp, hpf]
            · simp only [okRes]
              rw [hfail2, hff]
            · simp only [okRes]
              rw [htot2, htf]
            · simp only [okRes]
              rw [hrate2, hrf]
  · intro df rule g ge st hge hcol hne hvr
    have ht : jsonTry df rule ge st =
        TryOut.exc "None" { st with expKw := some (g.expectation_type, g.kwargs) } := by
      unfold jsonTry
      rw [hge]
      dsimp only
      rw [hcol]
    unfold jsonEvalRule
    rw [ht]
    dsimp only
    have hh : jsonHandler df "None" { st with expKw := some (g.expectation_type, g.kwargs) } =
        Except.error (PyErr.unboundLocal "validation_result") := by
      unfold jsonHandler
      dsimp only
      rw [if_pos (List.length_pos.mpr hne)]
      rw [show JSt.vr { st with expKw := some (g.expectation_type, g.kwargs) } = Option.none from hvr]
    rw [hh]
  · intro rule g ge st hge hcol
    have ht : jsonTry [] rule ge st =
        TryOut.exc "None" { st with expKw := some (g.expectation_type, g.kwargs) } := by
      unfold jsonTry
      rw [hge]
      dsimp only
      rw [hcol]
    have hh : jsonHandler [] "None" { st with expKw := some (g.expectation_type, g.kwargs) } =
        Except.ok
          { passed := false, total_records := 0, failed_records := 0,
            success_rate := 0, error_message := some "None",
            failed_records_sample := Option.none } := rfl
    have heval : jsonEvalRule [] rule ge st =
        jsonBuild rule { st with expKw := some (g.expectation_type, g.kwargs) }
          { passed := false, total_records := 0, failed_records := 0,
            success_rate := 0, error_message := some "None",
            failed_records_sample := Option.none } := by
      unfold jsonEvalRule
      rw [ht]
      dsimp only
      rw [hh]
    cases hbv : jsonBuild rule { st with expKw := some (g.expectation_type, g.kwargs) }
        { passed := false, total_records := 0, failed_records := 0,
          success_rate := 0, error_message := some "None",
          failed_records_sample := Option.none } with
    | error e2 =>
        unfold jsonBuild at hbv
        exact Except.noConfusion hbv
    | ok p =>
        obtain ⟨hp, htot2, hfail2, hrate2⟩ := jsonBuild_ok rule _ _ p hbv
        rw [hbv] at heval
        rw [heval]
        exact ⟨rfl, by simp only [okRes] ; rw [hp],
          by simp only [okRes] ; rw [hfail2],
          by simp only [okRes] ; rw [htot2],
          by simp only [okRes] ; rw [hrate2]⟩

/-- C10 witness: the amended statement at concrete inputs — a bound
`validation_result` from an earlier iteration yields the failing result,
and fresh bindings crash. -/
theorem C10_no_column_amended_witness :
    (exOk (jsonEvalRule sampleDf sampleRuleNoColumn (Except.ok geOkOne)
        jstBound) = true ∧
      (okRes (jsonEvalRule sampleDf sampleRuleNoColumn (Except.ok geOkOne)
        jstBound)).failed_records = sampleDf.length) ∧
    jsonEvalRule sampleDf sampleRuleNoColumn (Except.ok geOkOne) jstNone =
      Except.error (PyErr.unboundLocal "validation_result") := by
  refine ⟨⟨?_, ?_⟩, ?_⟩
  · exact (C10_no_column_amended.1 sampleDf sampleRuleNoColumn _
      (Except.ok geOkOne) jstBound geOkOne rfl rfl rfl).1
  · exact (C10_no_column_amended.1 sampleDf sampleRuleNoColumn _
      (Except.ok geOkOne) jstBound geOkOne rfl rfl rfl).2.2.1
  · exact C10_no_column_amended.2.1 sampleDf sampleRuleNoColumn _
      (Except.ok geOkOne) jstNone rfl rfl (List.cons_ne_nil _ _) rfl

theorem ensureJsonSerializableList_eq (xs : List PyVal) :
    ensureJsonSerializableList xs = xs.map ensureJsonSerializable := by
  induction xs with
  | nil => rfl
  | cons v t ih => simp only [ensureJsonSerializableList, List.map_cons, ih]

theorem ensureJsonSerializableKVs_eq (kvs : List (String × PyVal)) :
    ensureJsonSerializableKVs kvs =
      kvs.map (fun kv => (kv.1, ensureJsonSerializable kv.2)) := by
  induction kvs with
  | nil => rfl
  | cons kv t ih =>
      obtain ⟨k, v⟩ := kv
      simp only [ensureJsonSerializableKVs, List.map_cons, ih]

theorem npNanFreeList_eq (xs : List PyVal) :
    npNanFreeList xs = xs.all npNanFree := by
  induction xs with
  | nil => rfl
  | cons v t ih => simp only [npNanFreeList, List.all_cons, ih]

theorem npNanFreeKVs_eq (kvs : List (String × PyVal)) :
    npNanFreeKVs kvs = kvs.all (fun kv => npNanFree kv.2) := by
  induction kvs with
  | nil => rfl
  | cons kv t ih =>
      obtain ⟨k, v⟩ := kv
      simp only [npNanFreeKVs, List.all_cons, ih]

theorem npNanFree_ensure (v : PyVal) :
    npNanFree (ensureJsonSerializable v) = true := by
  cases v with
  | list xs =>
      show npNanFree (PyVal.list (ensureJsonSerializableList xs)) = true
      rw [ensureJsonSerializableList_eq]
      show npNanFreeList (xs.map ensureJsonSerializable) = true
      rw [npNanFreeList_eq, List.all_eq_true]
      intro x hx
      obtain ⟨y, hy, rfl⟩ := List.mem_map.mp hx
      exact npNanFree_ensure y
  | dict kvs =>
      show npNanFree (PyVal.dict (ensureJsonSerializableKVs kvs)) = true
      rw [ensureJsonSerializableKVs_eq]
      show npNanFreeKVs (kvs.map (fun kv => (kv.1, ensureJsonSerializable kv.2)))
        = true
      rw [npNanFreeKVs_eq, List.all_eq_true]
      intro x hx
      obtain ⟨⟨k, w⟩, hw, rfl⟩ := List.mem_map.mp hx
      exact npNanFree_ensure w
  | npFloat f => cases f <;> rfl
  | npInt n => rfl
  | none => rfl
  | bool b => rfl
  | int n => rfl
  | float f => cases f <;> rfl
  | str s => rfl
termination_by sizeOf v
decreasing_by
  · have h1 := List.sizeOf_lt_of_mem hy
    simp only [PyVal.list.sizeOf_spec]
    omega
  · have h1 := List.sizeOf_lt_of_mem hw
    simp only [PyVal.dict.sizeOf_spec, Prod.mk.sizeOf_spec] at h1 ⊢
    omega

/-- C7 counterexample: a RuleResult whose `failed_records_sample` holds a
plain-float infinity and a plain-float NaN passes through
`_clean_validation_result` unchanged — the values are not converted to
null — and `json.dumps` emits the non-JSON tokens `Infinity` and `NaN`
for them (no error), contradicting the claimed NaN/inf-to-null
conversion. -/
theorem C7_plain_float_counterexample :
    cleanValidationResult infNanResult = Except.ok infNanResult ∧
    jsonDumps (PyVal.float PyFloat.inf) = Except.ok "Infinity" ∧
    jsonDumps (PyVal.float PyFloat.nan) = Except.ok "NaN" :=
  ⟨rfl, rfl, rfl⟩

/-- C7 amended: the cleaner converts numpy floating NaN to null — at any
depth under `_ensure_json_serializable` (used for every non-sample field)
and at the top level of sample-record values — while plain Python float
NaN and all infinities are left unchanged and serialize as the
non-standard `NaN`/`Infinity` tokens rather than null, still without
raising. -/
theorem C7_numpy_nan_only_nulled :
    (∀ v : PyVal, npNanFree (ensureJsonSerializable v) = true) ∧
    ensureJsonSerializable (PyVal.npFloat PyFloat.nan) = PyVal.none ∧
    cleanSampleVal (PyVal.npFloat PyFloat.nan) = PyVal.none ∧
    jsonDumps PyVal.none = Except.ok "null" ∧
    ensureJsonSerializable (PyVal.float PyFloat.nan) =
      PyVal.float PyFloat.nan ∧
    ensureJsonSerializable (PyVal.npFloat PyFloat.inf) =
      PyVal.float PyFloat.inf ∧
    cleanSampleVal (PyVal.float PyFloat.inf) = PyVal.float PyFloat.inf ∧
    jsonDumps (PyVal.float PyFloat.inf) = Except.ok "Infinity" ∧
    jsonDumps (PyVal.float PyFloat.nan) = Except.ok "NaN" :=
  ⟨npNanFree_ensure, rfl, rfl, rfl, rfl, rfl, rfl, rfl, rfl⟩

theorem pyBEq_refl_hashable (v : PyVal) (h : isUnhashable v = false) :
    pyBEq v v = true := by
  cases v <;> simp_all [pyBEq, isUnhashable]

theorem uniqGo_spec (l : List PyVal) : ∀ (seen u : List PyVal),
    uniqGo seen l = Except.ok u →
    (∀ x ∈ u, isUnhashable x = false) ∧
      (∀ x ∈ u, seen.any (pyBEq x) = false) ∧ u.Nodup := by
  induction l with
  | nil =>
      intro seen u h
      injection h with h2
      subst h2
      exact ⟨fun x hx => absurd hx (List.not_mem_nil x),
        fun x hx => absurd hx (List.not_mem_nil x), List.nodup_nil⟩
  | cons c rest ih =>
      intro seen u h
      unfold uniqGo at h
      by_cases hu : isUnhashable c = true
      · rw [if_pos hu] at h
        exact Except.noConfusion h
      · rw [if_neg hu] at h
        rw [Bool.not_eq_true] at hu
        by_cases hs : seen.any (pyBEq c) = true
        · rw [if_pos hs] at h
          exact ih seen u h
        · rw [if_neg hs] at h
          rw [Bool.not_eq_true] at hs
          cases hrec : uniqGo (c :: seen) rest with
          | error e => rw [hrec] at h; exact Except.noConfusion h
          | ok t =>
              rw [hrec] at h
              simp only [Except.bind, bind, pure, Except.pure] at h
              injection h with h2
              subst h2
              obtain ⟨ha, hb, hc⟩ := ih (c :: seen) t hrec
              refine ⟨?_, ?_, ?_⟩
              · intro x hx
                rcases List.mem_cons.mp hx with hx | hx
                · subst hx; exact hu
                · exact ha x hx
              · intro x hx
                rcases List.mem_cons.mp hx with hx | hx
                · subst hx; exact hs
                · have := hb x hx
                  simp only [List.any_cons, Bool.or_eq_false_iff] at this
                  exact this.2
              · refine List.nodup_cons.mpr ⟨?_, hc⟩
                intro hmem
                have := hb c hmem
                simp only [List.any_cons, Bool.or_eq_false_iff] at this
                rw [pyBEq_refl_hashable c hu] at this
                exact Bool.noConfusion this.1

theorem csvTry_binds (df : List Rec) (cols : List String) (rule : Rule)
    (ge : Except String GEResult) (st : CsvSt) (g : GERule)
    (hge : rule.ge_rule = some g) :
    (match csvTry df cols rule ge st with
     | TryOut.fields _ st2 => st2
     | TryOut.exc _ st2 => st2) = some (g.expectation_type, g.kwargs) := by
  unfold csvTry
  rw [hge]
  dsimp only
  cases ge <;> rfl

theorem csvBuild_columns (rule : Rule) (g : GERule) (f : EvalFields)
    (p : RuleResult × CsvSt) (cs : List PyVal)
    (hge : rule.ge_rule = some g)
    (hex : extractColumnsFromKwargs g.kwargs = Except.ok cs)
    (h : csvBuild rule (some (g.expectation_type, g.kwargs)) f
      = Except.ok p) :
    p.1.columns = some cs := by
  unfold csvBuild at h
  dsimp only at h
  rw [hex, hge] at h
  dsimp only at h
  injection h with h2
  subst h2
  rfl

theorem jsonBuild_columns (rule : Rule) (st : JSt) (f : EvalFields)
    (p : RuleResult × JSt) (h : jsonBuild rule st f = Except.ok p) :
    p.1.columns = Option.none ∨ p.1.columns = some [] := by
  unfold jsonBuild at h
  repeat' split at h
  all_goals first
    | exact Except.noConfusion h
    | (injection h with h2 ; subst h2 ; exact cleanTyped_columns_of_none _ rfl)

/-- C8 counterexample: a JSON-validator result for a rule that does target
column `a` carries no `columns` entry at all (modelled as `Option.none`) —
not the extracted list `["a"]` the claim requires on every RuleResult of
either validator. -/
theorem C8_json_columns_missing_counterexample :
    exOk (jsonEvalRule sampleDf sampleRule (Except.ok geOkOne) jstNone)
        = true ∧
      (okRes (jsonEvalRule sampleDf sampleRule (Except.ok geOkOne)
        jstNone)).columns = Option.none :=
  ⟨rfl, rfl⟩

/-- C8 amended: the Tabular/CSV validator populates `columns` on every
produced RuleResult with the values extracted from the rule kwargs by the
keys `column`, `columns`, `column_A`, `column_B`, `column_list`,
deduplicated keeping first occurrences (no duplicates remain; a rule with
none of those keys yields the empty list); the Nested/JSON validator's
RuleResults carry no `columns` field at all (or an empty one inserted by
the serialization fallback), which the API layer defaults to the empty
list — never the extracted column names. -/
theorem C8_columns_resolution_amended :
    (∀ (df : List Rec) (cols : List String) (rule : Rule) (g : GERule)
        (ge : Except String GEResult) (st : CsvSt) (cs : List PyVal),
        rule.ge_rule = some g →
        extractColumnsFromKwargs g.kwargs = Except.ok cs →
        exOk (csvEvalRule df cols rule ge st) = true →
        (okRes (csvEvalRule df cols rule ge st)).columns = some cs) ∧
    (∀ (kw : Kwargs) (cs : List PyVal),
        extractColumnsFromKwargs kw = Except.ok cs → cs.Nodup) ∧
    (∀ kw : Kwargs,
        kwGet kw "column" = Option.none → kwGet kw "columns" = Option.none →
        kwGet kw "column_A" = Option.none →
        kwGet kw "column_B" = Option.none →
        kwGet kw "column_list" = Option.none →
        extractColumnsFromKwargs kw = Except.ok []) ∧
    (∀ (df : List Rec) (rule : Rule) (ge : Except String GEResult) (st : JSt),
        exOk (jsonEvalRule df rule ge st) = true →
        (okRes (jsonEvalRule df rule ge st)).columns = Option.none ∨
          (okRes (jsonEvalRule df rule ge st)).columns = some []) := by
  refine ⟨?_, ?_, ?_, ?_⟩
  · intro df cols rule g ge st cs hge hex h
    cases he : csvEvalRule df cols rule ge st with
    | error e =>
        rw [he] at h
        exact absurd h (by simp [exOk])
    | ok p =>
        simp only [okRes]
        have hb := csvTry_binds df cols rule ge st g hge
        unfold csvEvalRule at he
        cases ht : csvTry df cols rule ge st <;> rw [ht] at he hb <;>
          dsimp only at he hb
        case fields f st2 =>
          subst hb
          exact csvBuild_columns rule g f p cs hge hex he
        case exc m st2 =>
          subst hb
          cases hh : csvHandler df cols m (some (g.expectation_type, g.kwargs)) <;>
            rw [hh] at he <;> dsimp only at he
          · exact Except.noConfusion he
          case ok f =>
            exact csvBuild_columns rule g f p cs hge hex he
  · intro kw cs hex
    exact (uniqGo_spec (collectColumns kw) [] cs hex).2.2
  · intro kw h1 h2 h3 h4 h5
    unfold extractColumnsFromKwargs collectColumns
    simp only [h1, h2, h3, h4, h5, List.foldl]
    rfl
  · intro df rule ge st h
    cases he : jsonEvalRule df rule ge st with
    | error e =>
        rw [he] at h
        exact absurd h (by simp [exOk])
    | ok p =>
        simp only [okRes]
        unfold jsonEvalRule at he
        cases ht : jsonTry df rule ge st <;> rw [ht] at he <;> dsimp only at he
        case fields f st2 => exact jsonBuild_columns rule st2 f p he
        case exc m st2 =>
          cases hh : jsonHandler df m st2 <;> rw [hh] at he <;> dsimp only at he
          · exact Except.noConfusion he
          case ok f => exact jsonBuild_columns rule st2 f p he

/-- C8 witness: the amended statement at concrete inputs — an overlapping
two-key rule on the CSV side (duplicates removed, first-seen order), the
no-column extraction, and a JSON run whose result has no columns entry. -/
theorem C8_columns_resolution_amended_witness :
    (okRes (csvEvalRule sampleDf sampleCols overlapRule (Except.ok geOkOne)
        Option.none)).columns = some [PyVal.str "a", PyVal.str "b"] ∧
    List.Nodup [PyVal.str "a", PyVal.str "b"] ∧
    extractColumnsFromKwargs [("min_value", PyVal.int 1)] = Except.ok [] ∧
    ((okRes (jsonEvalRule sampleDf sampleRule (Except.ok geOkOne)
        jstNone)).columns = Option.none ∨
      (okRes (jsonEvalRule sampleDf sampleRule (Except.ok geOkOne)
        jstNone)).columns = some []) := by
  refine ⟨?_, ?_, ?_, ?_⟩
  · exact C8_columns_resolution_amended.1 sampleDf sampleCols overlapRule _
      (Except.ok geOkOne) Option.none [PyVal.str "a", PyVal.str "b"] rfl rfl rfl
  · exact C8_columns_resolution_amended.2.1 overlapKwargs
      [PyVal.str "a", PyVal.str "b"] rfl
  · exact C8_columns_resolution_amended.2.2.1 [("min_value", PyVal.int 1)]
      rfl rfl rfl rfl rfl
  · exact C8_columns_resolution_amended.2.2.2 sampleDf sampleRule
      (Except.ok geOkOne) jstNone rfl

theorem ilocRecords_length (df : List Rec) : ∀ (idxs : List PyVal)
    (rs : List Rec), ilocRecords df idxs = Except.ok rs →
    rs.length = idxs.length := by
  intro idxs
  induction idxs with
  | nil =>
      intro rs h
      injection h with h2
      subst h2
      rfl
  | cons v rest ih =>
      intro rs h
      unfold ilocRecords at h
      simp only [bind, Except.bind, pure, Except.pure] at h
      repeat' split at h
      all_goals first
        | exact Except.noConfusion h
        | (injection h with h2 ; subst h2 ;
           simp only [List.length_cons] ;
           exact congrArg (fun n => n + 1) (ih _ (by assumption)))

theorem take5_length_le (l : List PyVal) : (l.take 5).length ≤ 5 := by
  rw [List.length_take]
  omega

theorem ilocOrEmpty_le (df : List Rec) (idxs : List PyVal) :
    (ilocOrEmpty df idxs).length ≤ idxs.length := by
  unfold ilocOrEmpty
  cases hv : ilocRecords df idxs with
  | error e => simp
  | ok rs =>
      rw [List.length_map]
      exact le_of_eq (ilocRecords_length df idxs rs hv)

theorem wrapValues_le (kw : Kwargs) (vals : List PyVal) :
    (wrapValues kw vals).length ≤ 5 := by
  unfold wrapValues
  rw [List.length_map]
  exact take5_length_le vals

theorem fallbackColumnSample_le (kw : Kwargs) (df : List Rec)
    (cols : List String) : (fallbackColumnSample kw df cols).length ≤ 5 := by
  unfold fallbackColumnSample
  repeat' split
  all_goals simp only [List.length_map, List.length_take, List.length_nil]
  all_goals omega

theorem csvIndexMethod_le (df : List Rec) (uil : List PyVal)
    (s : List PyVal) (h : csvIndexMethod df uil = Except.ok s) :
    s.length ≤ 5 := by
  unfold csvIndexMethod at h
  split at h
  · simp only [bind, Except.bind] at h
    cases hc : collectIndicesCsv uil <;> rw [hc] at h <;> dsimp only at h
    · exact Except.noConfusion h
    · split at h
      · injection h with h2
        subst h2
        exact le_trans (ilocOrEmpty_le _ _) (take5_length_le _)
      · injection h with h2
        subst h2
        simp
  · injection h with h2
    subst h2
    simp

theorem jsonIndexMethod_le (uil : List PyVal) (s : List PyVal)
    (h : jsonIndexMethod uil = Except.ok s) : s.length ≤ 5 := by
  unfold jsonIndexMethod at h
  split at h
  · simp only [bind, Except.bind] at h
    cases hc : collectIndicesJson uil <;> rw [hc] at h <;> dsimp only at h
    · exact Except.noConfusion h
    · injection h with h2
      subst h2
      simp
  · injection h with h2
    subst h2
    simp

theorem csvSampleBody_ok_le (vr : GEResult) (kw : Kwargs) (df : List Rec)
    (cols : List String) (l : List PyVal)
    (h : csvSampleBody vr kw df cols = Except.ok l) : l.length ≤ 5 := by
  unfold csvSampleBody at h
  simp only [bind, Except.bind, pure, Except.pure] at h
  cases h1 : csvIndexMethod df vr.unexpected_index_list <;> rw [h1] at h <;>
    dsimp only at h
  · exact Except.noConfusion h
  case ok s1 =>
    split at h
    · injection h with h2
      subst h2
      exact csvIndexMethod_le df _ _ h1
    · cases h2 : csvIndexMethod df vr.partial_unexpected_index_list <;>
        rw [h2] at h <;> dsimp only at h
      · exact Except.noConfusion h
      case ok s2 =>
        split at h
        · injection h with h3
          subst h3
          exact csvIndexMethod_le df _ _ h2
        · split at h
          · injection h with h3
            subst h3
            exact wrapValues_le _ _
          · split at h
            · injection h with h3
              subst h3
              exact wrapValues_le _ _
            · injection h with h3
              subst h3
              exact fallbackColumnSample_le _ _ _

theorem jsonSampleBody_ok_le (vr : GEResult) (kw : Kwargs) (df : List Rec)
    (l : List PyVal) (h : jsonSampleBody vr kw df = Except.ok l) :
    l.length ≤ 5 := by
  unfold jsonSampleBody at h
  simp only [bind, Except.bind, pure, Except.pure] at h
  cases h1 : jsonIndexMethod vr.unexpected_index_list <;> rw [h1] at h <;>
    dsimp only at h
  · exact Except.noConfusion h
  case ok s1 =>
    split at h
    · injection h with h2
      subst h2
      exact jsonIndexMethod_le _ _ h1
    · cases h2 : jsonIndexMethod vr.partial_unexpected_index_list <;>
        rw [h2] at h <;> dsimp only at h
      · exact Except.noConfusion h
      case ok s2 =>
        split at h
        · injection h with h3
          subst h3
          exact jsonIndexMethod_le _ _ h2
        · split at h
          · injection h with h3
            subst h3
            exact wrapValues_le _ _
          · split at h
            · injection h with h3
              subst h3
              exact wrapValues_le _ _
            · injection h with h3
              subst h3
              exact fallbackColumnSample_le _ _ _

/-- C9: failed-records sample extraction, in both validators, never lets an
error escape and returns either nothing or at most 5 records: the outer
handler catches every internal failure (`Option.none` on a body error, as
the last two conjuncts state), and any produced sample list has length at
most 5, whichever strategy of the priority chain produced it. -/
theorem C9_sample_extraction_contract :
    (∀ (vr : GEResult) (kw : Kwargs) (df : List Rec) (cols : List String),
        ((csvExtractFailedRecordsSample vr kw df cols).map
          List.length).getD 0 ≤ 5) ∧
    (∀ (vr : GEResult) (kw : Kwargs) (df : List Rec),
        ((jsonExtractFailedRecordsSample vr kw df).map List.length).getD 0
          ≤ 5) ∧
    (∀ (vr : GEResult) (kw : Kwargs) (df : List Rec) (cols : List String)
        (m : String), csvSampleBody vr kw df cols = Except.error m →
        csvExtractFailedRecordsSample vr kw df cols = Option.none) ∧
    (∀ (vr : GEResult) (kw : Kwargs) (df : List Rec) (m : String),
        jsonSampleBody vr kw df = Except.error m →
        jsonExtractFailedRecordsSample vr kw df = Option.none) := by
  refine ⟨?_, ?_, ?_, ?_⟩
  · intro vr kw df cols
    unfold csvExtractFailedRecordsSample
    cases hb : csvSampleBody vr kw df cols with
    | error m => simp
    | ok l =>
        cases l with
        | nil => simp
        | cons a t =>
            simpa using csvSampleBody_ok_le vr kw df cols (a :: t) hb
  · intro vr kw df
    unfold jsonExtractFailedRecordsSample
    cases hb : jsonSampleBody vr kw df with
    | error m => simp
    | ok l =>
        cases l with
        | nil => simp
        | cons a t => simpa using jsonSampleBody_ok_le vr kw df (a :: t) hb
  · intro vr kw df cols m h
    unfold csvExtractFailedRecordsSample
    rw [h]
  · intro vr kw df m h
    unfold jsonExtractFailedRecordsSample
    rw [h]

/-- C9 witness: the contract at concrete inputs, including an index list
whose NaN entry makes the body raise (`int(nan)`), degraded to `None`. -/
theorem C9_sample_extraction_contract_witness :
    ((csvExtractFailedRecordsSample geFailOne
        [("column", PyVal.str "a")] sampleDf sampleCols).map
      List.length).getD 0 ≤ 5 ∧
    csvExtractFailedRecordsSample geNanIdx [] [] [] = Option.none ∧
    jsonExtractFailedRecordsSample geNanIdx [] [] = Option.none := by
  refine ⟨?_, ?_, ?_⟩
  · exact C9_sample_extraction_contract.1 geFailOne
      [("column", PyVal.str "a")] sampleDf sampleCols
  · exact C9_sample_extraction_contract.2.2.1 geNanIdx [] [] []
      "cannot convert float NaN to integer" rfl
  · exact C9_sample_extraction_contract.2.2.2 geNanIdx [] []
      "cannot convert float NaN to integer" rfl

theorem mem_explodeFrom (col : String) : ∀ (df : List Rec) (i j : ℕ)
    (v : PyVal),
    ((j, v) ∈ explodeFrom i df col ↔
      ∃ k r, df.get? k = some r ∧ j = i + k ∧ v ∈ elemsOf r col) := by
  intro df
  induction df with
  | nil =>
      intro i j v
      constructor
      · intro h
        exact absurd h (List.not_mem_nil _)
      · rintro ⟨k, r, hk, _, _⟩
        simp at hk
  | cons r rest ih =>
      intro i j v
      constructor
      · intro h
        rcases List.mem_append.mp h with h | h
        · obtain ⟨w, hw, heq⟩ := List.mem_map.mp h
          obtain ⟨h1, h2⟩ := Prod.mk.injEq _ _ _ _ ▸ heq
          refine ⟨0, r, rfl, by omega, ?_⟩
          rw [← h2]
          exact hw
        · obtain ⟨k, r2, hk, hj, hv⟩ := (ih (i + 1) j v).mp h
          exact ⟨k + 1, r2, by simpa using hk, by omega, hv⟩
      · rintro ⟨k, r2, hk, hj, hv⟩
        cases k with
        | zero =>
            have hr : r = r2 := by simpa using hk
            subst hr
            refine List.mem_append.mpr (Or.inl ?_)
            refine List.mem_map.mpr ⟨v, hv, ?_⟩
            have : j = i := by omega
            rw [this]
        | succ k2 =>
            refine List.mem_append.mpr (Or.inr ?_)
            exact (ih (i + 1) j v).mpr ⟨k2, r2, by simpa using hk, by omega, hv⟩

theorem doExplode_hasColumn (df : List Rec) (col : String)
    (h : doExplode df col = true) : dfHasColumn df col = true := by
  unfold doExplode at h
  unfold dfHasColumn
  rw [List.any_eq_true] at h ⊢
  obtain ⟨r, hr, hl⟩ := h
  refine ⟨r, hr, ?_⟩
  unfold recGet at hl
  cases hlo : List.lookup col r with
  | none =>
      rw [hlo] at hl
      exact absurd hl (by simp [isList])
  | some v => simp [hlo]

theorem extractRecordIds_model (l : List (ℕ × PyVal)) :
    extractRecordIds (l.map (fun p =>
        PyVal.dict [("__record_id__", PyVal.int (p.1 : ℤ))])) =
      Except.ok (l.map (fun p => PyVal.int (p.1 : ℤ))) := by
  induction l with
  | nil => rfl
  | cons p t ih =>
      simp only [List.map_cons]
      unfold extractRecordIds
      simp only [pyIn, pyGetKey, List.lookup, beq_self_eq_true, bind,
        Except.bind, pure, Except.pure, Option.isSome_some, if_true, ih]

theorem ints_not_unhashable {α : Type} (f : α → ℤ) (l : List α) :
    ((l.map (fun x => PyVal.int (f x))).any isUnhashable) = false := by
  induction l with
  | nil => rfl
  | cons a t ih =>
      simp only [List.map_cons, List.any_cons, ih, Bool.or_false]
      rfl

theorem pyDistinct_natmap (l : List ℕ) :
    pyDistinct (l.map (fun n : ℕ => PyVal.int (n : ℤ))) =
      l.dedup.map (fun n : ℕ => PyVal.int (n : ℤ)) := by
  induction l with
  | nil => rfl
  | cons a t ih =>
      simp only [List.map_cons, pyDistinct, ih]
      by_cases hm : a ∈ t
      · have hmem : ((t.dedup.map (fun n : ℕ => PyVal.int (n : ℤ))).any
            (pyBEq (PyVal.int (a : ℤ)))) = true := by
          rw [List.any_eq_true]
          exact ⟨PyVal.int (a : ℤ),
            List.mem_map_of_mem _ (List.mem_dedup.mpr hm), by simp [pyBEq]⟩
        rw [if_pos hmem, List.dedup_cons_of_mem hm]
      · have hmem : ((t.dedup.map (fun n : ℕ => PyVal.int (n : ℤ))).any
            (pyBEq (PyVal.int (a : ℤ)))) = false := by
          rw [List.any_eq_false]
          intro x hx
          obtain ⟨b, hb, rfl⟩ := List.mem_map.mp hx
          have hne : a ≠ b := fun he => hm (he ▸ List.mem_dedup.mp hb)
          simp [pyBEq, Nat.cast_injective.ne hne]
        rw [if_neg (by rw [hmem] ; exact Bool.false_ne_true),
          List.dedup_cons_of_not_mem hm, List.map_cons]

theorem pyDistinct_int_card (l : List ℕ) :
    (pyDistinct (l.map (fun n : ℕ => PyVal.int (n : ℤ)))).length =
      l.toFinset.card := by
  rw [pyDistinct_natmap, List.length_map, List.card_toFinset]

theorem jsonTry_exploded (df : List Rec) (rule : Rule) (g : GERule)
    (col : String) (fails : PyVal → Bool) (st : JSt)
    (hge : rule.ge_rule = some g)
    (hcol : kwGet g.kwargs "column" = some (PyVal.str col))
    (hexp : doExplode df col = true) :
    ∃ f st2,
      jsonTry df rule (Except.ok (geModelExploded df col fails)) st =
        TryOut.fields f st2 ∧
      f.total_records = df.length ∧
      f.failed_records = (failingIds df col fails).toFinset.card ∧
      st2.expKw = some (g.expectation_type, g.kwargs) := by
  unfold jsonTry
  rw [hge]
  try dsimp only
  rw [hcol]
  try dsimp only
  rw [if_pos (doExplode_hasColumn df col hexp)]
  try dsimp only
  rw [if_pos hexp]
  simp only [geModelExploded]
  rw [extractRecordIds_model]
  try dsimp only
  rw [if_neg (by rw [ints_not_unhashable] ; exact Bool.false_ne_true)]
  refine ⟨_, _, rfl, rfl, ?_, rfl⟩
  have hm2 : ((explodeRows df col).filter (fun p => fails p.2)).map
      (fun p => PyVal.int (p.1 : ℤ)) =
      (((explodeRows df col).filter (fun p => fails p.2)).map Prod.fst).map
        (fun n : ℕ => PyVal.int (n : ℤ)) := by
    rw [List.map_map]
    rfl
  rw [hm2, pyDistinct_int_card]
  rfl

/-- C2: for the Nested/JSON validator with a rule whose target column holds
a list in at least one record, evaluated against the modelled external run
on the exploded frame (one `__record_id__` entry per failing exploded row),
the produced RuleResult aggregates at the original record level:
`failed_records` is the number of distinct original record ids with at
least one failing exploded row, `total_records` the pre-explosion record
count, and a record whose column is a nonempty list belongs to the failing
ids exactly when some element fails — so it counts once, never per
element. -/
theorem C2_exploded_aggregation (df : List Rec) (rule : Rule) (g : GERule)
    (col : String) (fails : PyVal → Bool) (st : JSt)
    (hge : rule.ge_rule = some g)
    (hcol : kwGet g.kwargs "column" = some (PyVal.str col))
    (hexp : doExplode df col = true) :
    exOk (jsonEvalRule df rule (Except.ok (geModelExploded df col fails))
        st) = true ∧
    (okRes (jsonEvalRule df rule (Except.ok (geModelExploded df col fails))
        st)).total_records = df.length ∧
    (okRes (jsonEvalRule df rule (Except.ok (geModelExploded df col fails))
        st)).failed_records = (failingIds df col fails).toFinset.card ∧
    (∀ (i : ℕ) (r : Rec) (xs : List PyVal), df.get? i = some r →
      recGet r col = PyVal.list xs → xs ≠ [] →
      (i ∈ failingIds df col fails ↔ xs.any fails = true)) := by
  obtain ⟨f, st2, ht, hftot, hffail, hek⟩ :=
    jsonTry_exploded df rule g col fails st hge hcol hexp
  cases hbv : jsonBuild rule st2 f with
  | error e2 =>
      exfalso
      unfold jsonBuild at hbv
      rw [hek] at hbv
      exact Except.noConfusion hbv
  | ok p =>
      obtain ⟨hp, htot2, hfail2, hrate2⟩ := jsonBuild_ok rule st2 f p hbv
      have he : jsonEvalRule df rule
          (Except.ok (geModelExploded df col fails)) st = Except.ok p := by
        unfold jsonEvalRule
        rw [ht]
        dsimp only
        exact hbv
      rw [he]
      refine ⟨rfl, ?_, ?_, ?_⟩
      · simp only [okRes]
        rw [htot2, hftot]
      · simp only [okRes]
        rw [hfail2, hffail]
      · intro i r xs hget hcl hne
        have helems : elemsOf r col = xs := by
          unfold elemsOf
          rw [hcl]
          cases xs with
          | nil => exact absurd rfl hne
          | cons a t => rfl
        unfold failingIds
        constructor
        · intro hmem
          obtain ⟨q, hq, hq1⟩ := List.mem_map.mp hmem
          obtain ⟨hqe, hqf⟩ := List.mem_filter.mp hq
          obtain ⟨j, v⟩ := q
          dsimp only at hq1 hqf
          subst hq1
          obtain ⟨k, r2, hk, hjk, hv⟩ := (mem_explodeFrom col df 0 j v).mp hqe
          have hki : k = j := by omega
          subst hki
          rw [hget] at hk
          injection hk with hk2
          subst hk2
          rw [List.any_eq_true]
          refine ⟨v, ?_, hqf⟩
          rw [← helems]
          exact hv
        · intro hany
          obtain ⟨x, hx, hfx⟩ := List.any_eq_true.mp hany
          refine List.mem_map.mpr ⟨(i, x), ?_, rfl⟩
          refine List.mem_filter.mpr ⟨?_, hfx⟩
          refine (mem_explodeFrom col df 0 i x).mpr ⟨i, r, hget, by omega, ?_⟩
          rw [helems]
          exact hx

/-- C2 witness: the exploded aggregation at a concrete two-record frame —
the record `["a","b"]` with one failing element counts exactly once, so one
failed record out of a pre-explosion total of two. -/
theorem C2_exploded_aggregation_witness :
    exOk (jsonEvalRule explodeDf explodeRule
        (Except.ok (geModelExploded explodeDf "tags" failsIsB)) jstNone)
      = true ∧
    (okRes (jsonEvalRule explodeDf explodeRule
        (Except.ok (geModelExploded explodeDf "tags" failsIsB))
        jstNone)).total_records = explodeDf.length ∧
    (okRes (jsonEvalRule explodeDf explodeRule
        (Except.ok (geModelExploded explodeDf "tags" failsIsB))
        jstNone)).failed_records =
      (failingIds explodeDf "tags" failsIsB).toFinset.card ∧
    (failingIds explodeDf "tags" failsIsB).toFinset.card = 1 := by
  obtain ⟨h1, h2, h3, _⟩ := C2_exploded_aggregation explodeDf explodeRule _
    "tags" failsIsB jstNone rfl rfl rfl
  exact ⟨h1, h2, h3, by decide⟩
